import Mathlib

/-!
Shallow embedding of the Ikigai model-component layer (`model.py`,
`model_version.py`, `models.py`, `model_versions.py`).

The external collaborators (store gateway, alias resolver, blob namespace,
filename validator, model-type formatters) are modelled as an environment of
pure functions plus an immutable store state; every store / resolver / blob
request a Python method issues is recorded as an `Op` in an effect trace, and
each Python exception becomes an `Err` value.  Machine-level details that the
spec declares out of scope (wire encoding of timestamps) are represented by an
abstract value type that mirrors Python's `str`/`int` behaviour on the values
the code actually produces.
-/

/-- Python truthiness of an optional string: `None` and `""` are falsy. -/
def strTruthy : Option String → Bool
  | none => false
  | some s => !(s == "")

/-- Python truthiness of an optional list: `None` and `[]` are falsy. -/
def listTruthy : Option (List String) → Bool
  | none => false
  | some l => !l.isEmpty

/-- Opaque nested key-value document (hyperparameters / metrics payloads);
this layer never inspects its contents. -/
abbrev Document := List (String × String)

/-- Row of the `model` service table, as returned by the store gateway. -/
structure ModelRow where
  model_id : Option String
  project_id : Option String
  name : Option String
  latest_version_id : Option String
  model_type : Option String
  sub_model_type : Option String
  description : Option String
  directory_id : Option String
  created_at : Option Int
  modified_at : Option Int
deriving DecidableEq, Repr

/-- Row of the `model_version` service table. -/
structure VersionRow where
  version_id : Option String
  model_id : Option String
  version : Option String
  hyperparameters : Option Document
  metrics : Option Document
  fold_metrics : Option Document
  created_at : Option Int
  modified_at : Option Int
deriving DecidableEq, Repr

/-- Row of the `directory` service table (only the columns this layer filters on). -/
structure DirectoryRow where
  directory_id : Option String
  project_id : Option String
  type : Option String
deriving DecidableEq, Repr

/-- Immutable snapshot of the service database visible to the store gateway. -/
structure DBState where
  models : List ModelRow
  versions : List VersionRow
  directories : List DirectoryRow
deriving DecidableEq, Repr

/-- The in-memory `Model` dataclass (`model.py`). -/
structure Model where
  model_id : Option String := none
  project_id : Option String := none
  name : Option String := none
  latest_version_id : Option String := none
  model_type : Option String := none
  sub_model_type : Option String := none
  description : Option String := none
  directory_id : Option String := none
  created_at : Option Int := none
  modified_at : Option Int := none
deriving DecidableEq, Repr

/-- The in-memory `ModelVersion` dataclass (`model_version.py`). -/
structure ModelVersion where
  model_id : Option String := none
  version : Option String := none
  version_id : Option String := none
  hyperparameters : Option Document := none
  metrics : Option Document := none
  fold_metrics : Option Document := none
  created_at : Option Int := none
  modified_at : Option Int := none
deriving DecidableEq, Repr

/-- The `Models` collection dataclass (`models.py`). -/
structure Models where
  models : List Model
deriving DecidableEq, Repr

/-- The `ModelVersions` collection dataclass (`model_versions.py`). -/
structure ModelVersions where
  versions : List ModelVersion
deriving DecidableEq, Repr

/-- Exception taxonomy raised by the layer, mirroring the Python exception
classes (`InvalidInputException`, `NoModelException`, `NoDirectoryException`,
project-alias not-found, `DatabaseException`, and Python's own `ValueError`
for `int()` on a non-numeric string). -/
inductive Err where
  | invalidInput (msg : String)
  | noModel (msg : String)
  | noDirectory (msg : String)
  | noProjectAlias (msg : String)
  | databaseDown (msg : String)
  | valueError (msg : String)
deriving DecidableEq, Repr

/-- One request issued to an external collaborator (store gateway, alias
resolver, blob namespace).  Filter values are carried verbatim: `none` means
the keyword was `None`, which the store gateway treats as "no constraint". -/
inductive Op where
  | queryModelOne (model_id : String)
  | queryModels (project_id : Option String) (directory_id : Option String)
  | queryVersionOne (version_id : Option String) (model_id : Option String)
  | queryVersions (model_id : Option String) (model_ids : Option (List String))
  | queryDirectories (directory_id : Option String) (project_id : Option String) (ctype : String)
  | aliasResolve (identifier : String) (project_id : String)
  | deleteModelRow (model_id : Option String)
  | deleteVersionRow (version_id : Option String) (model_id : Option String)
  | blobDeleteDir (bucket : String) (path : String)
  | annsDelete (component_type : String) (component_id : Option String)
  | aliasDelete (component_id : Option String)
deriving DecidableEq, Repr

instance {ε α : Type} [DecidableEq ε] [DecidableEq α] : DecidableEq (Except ε α) := fun x y =>
  match x, y with
  | .ok a, .ok b =>
      if h : a = b then isTrue (by rw [h]) else isFalse (fun hc => h (by cases hc; rfl))
  | .ok _, .error _ => isFalse (fun hc => Except.noConfusion hc)
  | .error _, .ok _ => isFalse (fun hc => Except.noConfusion hc)
  | .error e, .error f =>
      if h : e = f then isTrue (by rw [h]) else isFalse (fun hc => h (by cases hc; rfl))

/-- Result of running a method: the ordered trace of collaborator requests it
issued, and either its return value or the exception it raised. -/
structure Eff (α : Type) where
  ops : List Op
  res : Except Err α
deriving DecidableEq, Repr

/-- Sequencing of effects: an exception aborts the continuation, keeping the
trace issued so far. -/
def Eff.bind {α β : Type} (x : Eff α) (f : α → Eff β) : Eff β :=
  match x.res with
  | .error e => ⟨x.ops, .error e⟩
  | .ok a => ⟨x.ops ++ (f a).ops, (f a).res⟩

instance : Monad Eff where
  pure a := ⟨[], .ok a⟩
  bind := Eff.bind

/-- Raise an exception without touching any collaborator. -/
def Eff.fail {α : Type} (e : Err) : Eff α := ⟨[], .error e⟩

/-- Environment of external pure collaborators: the alias syntax test and the
alias table (alias resolver), the filename validator from `pathvalidate`, and
the model-type formatters from `format_utils`. -/
structure Env where
  is_alias : String → Bool
  aliasTarget : String → String → Option String
  valid_filename : String → Bool
  toExternalType : String → String
  toInternalType : String → String

/-- Alias syntax test lifted to an optional id; a missing id is not an alias
token (the spec's aliases are non-empty human-assigned strings). -/
def isAliasOpt (env : Env) : Option String → Bool
  | none => false
  | some s => env.is_alias s

/-- Constant `COMPONENT_TYPES.model` (opaque tag from `message_utils`). -/
def COMPONENT_TYPES_model : String := "MODEL"

/-- Constant `OBJECT_STORE_BUCKET.model` (opaque tag from `message_utils`). -/
def OBJECT_STORE_BUCKET_model : String := "model-bucket"

/-- A keyword filter matches a column value: a `None` filter is no constraint,
otherwise the column must hold exactly the filtered string. -/
def optMatch (filter : Option String) (v : Option String) : Bool :=
  match filter with
  | none => true
  | some f => v == some f

/-- A `model_ids` list filter matches a column value by membership; `None`
is no constraint. -/
def optMatchList (filter : Option (List String)) (v : Option String) : Bool :=
  match filter with
  | none => true
  | some l => l.any (fun s => v == some s)

/-- Store gateway: `query(model, fetchone=True, model_id=...)`; fails
`NoModelException` when no row matches (spec section 6). -/
def dbQueryModelOne (db : DBState) (mid : String) : Eff ModelRow :=
  ⟨[Op.queryModelOne mid],
    match db.models.find? (fun r => r.model_id == some mid) with
    | some r => .ok r
    | none => .error (Err.noModel "No model found")⟩

/-- Store gateway: `query(model, fetchone=False, project_id=..., directory_id=...)`;
returns the (possibly empty) list of matching rows and never raises. -/
def dbQueryModels (db : DBState) (p d : Option String) : Eff (List ModelRow) :=
  ⟨[Op.queryModels p d],
    .ok (db.models.filter (fun r => optMatch p r.project_id && optMatch d r.directory_id))⟩

/-- Store gateway: `query(model_version, fetchone=True, version_id=..., model_id=...)`. -/
def dbQueryVersionOne (db : DBState) (vid mid : Option String) : Eff VersionRow :=
  ⟨[Op.queryVersionOne vid mid],
    match db.versions.find? (fun r => optMatch vid r.version_id && optMatch mid r.model_id) with
    | some r => .ok r
    | none => .error (Err.noModel "No model version found")⟩

/-- Store gateway: `query(model_version, fetchone=False, model_id=..., model_ids=...)`. -/
def dbQueryVersions (db : DBState) (mid : Option String) (mids : Option (List String)) :
    Eff (List VersionRow) :=
  ⟨[Op.queryVersions mid mids],
    .ok (db.versions.filter (fun r => optMatch mid r.model_id && optMatchList mids r.model_id))⟩

/-- Store gateway: `query(directory, fetchone=False, directory_id=..., project_id=...,
type=...)`; with `fetchone=False` an empty match returns `[]` and raises nothing. -/
def dbQueryDirectories (db : DBState) (did p : Option String) (t : String) :
    Eff (List DirectoryRow) :=
  ⟨[Op.queryDirectories did p t],
    .ok (db.directories.filter
      (fun r => optMatch did r.directory_id && optMatch p r.project_id && r.type == some t))⟩

/-- Store gateway: `delete(model, model_id=...)` (idempotent, returns nothing). -/
def dbDeleteModelRow (mid : Option String) : Eff Unit := ⟨[Op.deleteModelRow mid], .ok ()⟩

/-- Store gateway: `delete(model_version, version_id=..., model_id=...)`. -/
def dbDeleteVersionRow (vid mid : Option String) : Eff Unit :=
  ⟨[Op.deleteVersionRow vid mid], .ok ()⟩

/-- Store gateway: `delete(annotation, component_type=..., component_id=...)`. -/
def dbDeleteAnns (t : String) (cid : Option String) : Eff Unit :=
  ⟨[Op.annsDelete t cid], .ok ()⟩

/-- Modelled from the spec: `alias_utils.delete_alias_for_component` (not under
`src/`) deletes every alias record pointing at the component id; idempotent
(spec section 6). -/
def delete_alias_for_component (cid : Option String) : Eff Unit :=
  ⟨[Op.aliasDelete cid], .ok ()⟩

/-- Modelled from the spec: `ObjectStore.delete_directory` (not under `src/`)
recursively deletes one blob-namespace path; idempotent (spec section 6). -/
def objectStoreDeleteDirectory (bucket path : String) : Eff Unit :=
  ⟨[Op.blobDeleteDir bucket path], .ok ()⟩

/-- Modelled from the spec: `alias_utils.to_project_component_id` (not under
`src/`) maps an alias to its canonical id within a project and fails with a
project-scoped no-such-alias error when no mapping exists (spec sections 4.1, 6). -/
def to_project_component_id (env : Env) (identifier project_id : String) : Eff String :=
  ⟨[Op.aliasResolve identifier project_id],
    match env.aliasTarget identifier project_id with
    | some cid => .ok cid
    | none => .error (Err.noProjectAlias "No such alias in the project")⟩

/-- The `Model.resolve_alias` classmethod (`model.py` lines 172-198): return a
non-alias id unchanged with no store access; an alias needs a truthy project
and is then delegated to the alias resolver. -/
def Model.resolve_alias (env : Env) (model_id : String) (project_id : Option String) :
    Eff String :=
  if env.is_alias model_id = false then pure model_id
  else if strTruthy project_id = false then
    Eff.fail (Err.invalidInput "Project must be provided with an alias")
  else
    match project_id with
    | some p => to_project_component_id env model_id p
    | none => Eff.fail (Err.invalidInput "Project must be provided with an alias")

/-- The `Model.resolve_directory_alias` classmethod (`model.py` lines 200-226);
textually the same algorithm applied to a directory id. -/
def Model.resolve_directory_alias (env : Env) (directory_id : String)
    (project_id : Option String) : Eff String :=
  if env.is_alias directory_id = false then pure directory_id
  else if strTruthy project_id = false then
    Eff.fail (Err.invalidInput "Project must be provided with an alias")
  else
    match project_id with
    | some p => to_project_component_id env directory_id p
    | none => Eff.fail (Err.invalidInput "Project must be provided with an alias")

/-- The `ModelVersion.resolve_alias` classmethod (`model_version.py` lines
145-170); same algorithm for a version id. -/
def ModelVersion.resolve_alias (env : Env) (version_id : String) (project_id : Option String) :
    Eff String :=
  if env.is_alias version_id = false then pure version_id
  else if strTruthy project_id = false then
    Eff.fail (Err.invalidInput "Project must be provided with an alias")
  else
    match project_id with
    | some p => to_project_component_id env version_id p
    | none => Eff.fail (Err.invalidInput "Project must be provided with an alias")

/-- The `Models.resolve_directory_alias` classmethod (`models.py` lines 78-102). -/
def Models.resolve_directory_alias (env : Env) (directory_id : String)
    (project_id : Option String) : Eff String :=
  if env.is_alias directory_id = false then pure directory_id
  else if strTruthy project_id = false then
    Eff.fail (Err.invalidInput "Project must be provided with an alias")
  else
    match project_id with
    | some p => to_project_component_id env directory_id p
    | none => Eff.fail (Err.invalidInput "Project must be provided with an alias")

/-- The `Model.from_namedtuple` classmethod (`model.py` lines 456-482): field-wise
copy of a store row. -/
def Model.from_namedtuple (r : ModelRow) : Model :=
  { model_id := r.model_id
    project_id := r.project_id
    name := r.name
    latest_version_id := r.latest_version_id
    model_type := r.model_type
    sub_model_type := r.sub_model_type
    directory_id := r.directory_id
    description := r.description
    created_at := r.created_at
    modified_at := r.modified_at }

/-- The `ModelVersion.from_namedtuple` classmethod (`model_version.py` lines
367-391): field-wise copy of a store row. -/
def ModelVersion.from_namedtuple (r : VersionRow) : ModelVersion :=
  { model_id := r.model_id
    version := r.version
    version_id := r.version_id
    hyperparameters := r.hyperparameters
    metrics := r.metrics
    fold_metrics := r.fold_metrics
    created_at := r.created_at
    modified_at := r.modified_at }

/-- The `Model.pull` classmethod (`model.py` lines 232-269): guard on a falsy
id, resolve the alias, fetch exactly one row, build the entity. -/
def Model.pull (env : Env) (db : DBState) (model_id project_id : Option String) :
    Eff Model :=
  match model_id with
  | none => Eff.fail (Err.noModel "Model ID must be provided")
  | some mid =>
    if mid = "" then Eff.fail (Err.noModel "Model ID must be provided")
    else do
      let mid2 ← Model.resolve_alias env mid project_id
      let row ← dbQueryModelOne db mid2
      pure (Model.from_namedtuple row)

/-- The `ModelVersion.pull` classmethod (`model_version.py` lines 176-215). -/
def ModelVersion.pull (env : Env) (db : DBState)
    (version_id model_id project_id : Option String) : Eff ModelVersion :=
  match version_id with
  | none => Eff.fail (Err.noModel "Version ID must be provided")
  | some vid =>
    if vid = "" then Eff.fail (Err.noModel "Version ID must be provided")
    else do
      let vid2 ← ModelVersion.resolve_alias env vid project_id
      let row ← dbQueryVersionOne db (some vid2) model_id
      pure (ModelVersion.from_namedtuple row)

/-- Python-dict comprehension keyed by `model_id`: for each key the last row
wins; the result has pairwise distinct keys (values of the dict built in
`Model.validate` lines 125-132). -/
def keepLastByModelId : List ModelRow → List ModelRow
  | [] => []
  | r :: rs =>
    if rs.any (fun r2 => r2.model_id == r.model_id) then keepLastByModelId rs
    else r :: keepLastByModelId rs

/-- Python-dict comprehension keyed by `version_id` (the dict built in
`ModelVersion.validate` lines 114-121). -/
def keepLastByVersionId : List VersionRow → List VersionRow
  | [] => []
  | r :: rs =>
    if rs.any (fun r2 => r2.version_id == r.version_id) then keepLastByVersionId rs
    else r :: keepLastByVersionId rs

/-- Existing-component stage of `Model.validate` (`model.py` lines 103-121):
fetch the canonical record by id, check parent consistency, reject an
unresolved alias. -/
def Model.validateIdentity (env : Env) (db : DBState) (m : Model) : Eff Unit :=
  match m.model_id with
  | none => pure ()
  | some mid =>
    if mid = "" then pure ()
    else do
      let row ← dbQueryModelOne db mid
      if strTruthy m.project_id ∧ m.project_id ≠ row.project_id then
        Eff.fail (Err.invalidInput "The model does not belong to the specified project")
      else if env.is_alias mid then
        Eff.fail (Err.invalidInput "Resolve the alias before usage")
      else pure ()

/-- Name stage of `Model.validate` (`model.py` lines 123-153): collision check
against the name set of the in-memory-project siblings (own identity and
falsy names excluded), then filename-syntax validation exactly when the
candidate name is absent from or differs from the own dict entry. -/
def Model.validateName (env : Env) (db : DBState) (m : Model) : Eff Unit :=
  match m.name with
  | none => pure ()
  | some nm =>
    if nm = "" then pure ()
    else do
      let rows ← dbQueryModels db m.project_id none
      let vals := keepLastByModelId rows
      if vals.any (fun r => r.model_id != m.model_id && strTruthy r.name && r.name == some nm) then
        Eff.fail (Err.invalidInput ("A model with name " ++ nm ++ " already exists"))
      else
        match vals.find? (fun r => r.model_id == m.model_id) with
        | none =>
          if env.valid_filename nm then pure ()
          else Eff.fail (Err.invalidInput "Invalid name")
        | some own =>
          if own.name ≠ some nm then
            if env.valid_filename nm then pure ()
            else Eff.fail (Err.invalidInput "Invalid name")
          else pure ()

/-- Directory stage of `Model.validate` (`model.py` lines 155-170): query the
directory table scoped to the in-memory project and the model component type;
a `NoDirectoryException` from the query would be translated into
`InvalidInputException`, but the query is issued with `fetchone=False`, which
returns a (possibly empty) list and raises no not-found error. -/
def Model.validateDirectory (env : Env) (db : DBState) (m : Model) : Eff Unit :=
  match m.directory_id with
  | none => pure ()
  | some did =>
    if did = "" then pure ()
    else
      let q := dbQueryDirectories db (some did) m.project_id COMPONENT_TYPES_model
      match q.res with
      | .error (Err.noDirectory _) =>
        ⟨q.ops, .error (Err.invalidInput "Model cannot be in different directory type")⟩
      | .error e => ⟨q.ops, .error e⟩
      | .ok _ => ⟨q.ops, .ok ()⟩

/-- The `Model.validate` method (`model.py` lines 92-170). -/
def Model.validate (env : Env) (db : DBState) (m : Model) : Eff Unit := do
  let _ ← Model.validateIdentity env db m
  let _ ← Model.validateName env db m
  Model.validateDirectory env db m

/-- Existing-component stage of `ModelVersion.validate` (`model_version.py`
lines 93-110). -/
def ModelVersion.validateIdentity (env : Env) (db : DBState) (v : ModelVersion) : Eff Unit :=
  match v.version_id with
  | none => pure ()
  | some vid =>
    if vid = "" then pure ()
    else do
      let row ← dbQueryVersionOne db (some vid) none
      if strTruthy v.model_id ∧ v.model_id ≠ row.model_id then
        Eff.fail (Err.invalidInput "The model version does not belong to the specified model")
      else if env.is_alias vid then
        Eff.fail (Err.invalidInput "Resolve the alias before usage")
      else pure ()

/-- Version-label stage of `ModelVersion.validate` (`model_version.py` lines
112-143); siblings are the rows filtered by the in-memory `model_id`. -/
def ModelVersion.validateVersion (env : Env) (db : DBState) (v : ModelVersion) : Eff Unit :=
  match v.version with
  | none => pure ()
  | some nm =>
    if nm = "" then pure ()
    else do
      let rows ← dbQueryVersions db v.model_id none
      let vals := keepLastByVersionId rows
      if vals.any (fun r => r.version_id != v.version_id && strTruthy r.version && r.version == some nm) then
        Eff.fail (Err.invalidInput ("A model version " ++ nm ++ " already exists"))
      else
        match vals.find? (fun r => r.version_id == v.version_id) with
        | none =>
          if env.valid_filename nm then pure ()
          else Eff.fail (Err.invalidInput "Invalid Version")
        | some own =>
          if own.version ≠ some nm then
            if env.valid_filename nm then pure ()
            else Eff.fail (Err.invalidInput "Invalid Version")
          else pure ()

/-- The `ModelVersion.validate` method (`model_version.py` lines 82-143). -/
def ModelVersion.validate (env : Env) (db : DBState) (v : ModelVersion) : Eff Unit := do
  let _ ← ModelVersion.validateIdentity env db v
  ModelVersion.validateVersion env db v

/-- The `ModelVersion.delete` method (`model_version.py` lines 247-274):
alias guard, defensive re-pull by (version_id, model_id), row delete, alias
cleanup.  It issues no annotation delete. -/
def ModelVersion.delete (env : Env) (db : DBState) (v : ModelVersion) : Eff Unit :=
  if isAliasOpt env v.version_id then
    Eff.fail (Err.invalidInput "Resolve the alias before usage")
  else do
    let mv ← ModelVersion.pull env db v.version_id v.model_id none
    let _ ← dbDeleteVersionRow mv.version_id mv.model_id
    delete_alias_for_component mv.version_id

/-- The `ModelVersions.pull` classmethod (`model_versions.py` lines 60-93). -/
def ModelVersions.pull (env : Env) (db : DBState) (model_id : Option String)
    (model_ids : Option (List String)) : Eff ModelVersions :=
  if listTruthy model_ids = false ∧ strTruthy model_id = false then
    Eff.fail (Err.invalidInput "Atleast one Model ID must be provided")
  else do
    let rows ← dbQueryVersions db model_id model_ids
    pure ⟨rows.map ModelVersion.from_namedtuple⟩

/-- The `ModelVersions.count` classmethod (`model_versions.py` lines 95-126). -/
def ModelVersions.count (env : Env) (db : DBState) (model_id : Option String)
    (model_ids : Option (List String)) : Eff Nat :=
  if listTruthy model_ids = false ∧ strTruthy model_id = false then
    Eff.fail (Err.invalidInput "Atleast one Model ID must be provided")
  else do
    let rows ← dbQueryVersions db model_id model_ids
    pure rows.length

/-- Sequential per-member loop of `ModelVersions.delete` (`model_versions.py`
lines 146-148): the first failing member aborts the remaining deletes. -/
def versionsDeleteEach (env : Env) (db : DBState) : List ModelVersion → Eff Unit
  | [] => pure ()
  | v :: vs => do
    let _ ← ModelVersion.delete env db v
    versionsDeleteEach env db vs

/-- The `ModelVersions.delete` classmethod (`model_versions.py` lines 128-148):
pull the full collection for the model, then delete each member in pulled
order. -/
def ModelVersions.delete (env : Env) (db : DBState) (model_id : Option String) : Eff Unit := do
  let vs ← ModelVersions.pull env db model_id none
  versionsDeleteEach env db vs.versions

/-- The `Model.delete` method (`model.py` lines 301-348): alias guard,
defensive re-pull, version cascade, own row delete, blob-namespace delete of
`project_id/model_id`, annotation cleanup, alias cleanup.  `os.path.join`
on a `None` component raises Python's `TypeError`, modelled as a
`valueError`-style failure. -/
def Model.delete (env : Env) (db : DBState) (m : Model) : Eff Unit :=
  if isAliasOpt env m.model_id then
    Eff.fail (Err.invalidInput "Resolve the alias before usage")
  else do
    let model ← Model.pull env db m.model_id none
    let _ ← ModelVersions.delete env db m.model_id
    let _ ← dbDeleteModelRow model.model_id
    let _ ← match model.project_id, model.model_id with
            | some p, some mid =>
              objectStoreDeleteDirectory OBJECT_STORE_BUCKET_model (p ++ "/" ++ mid)
            | _, _ => Eff.fail (Err.valueError "os.path.join on None")
    let _ ← dbDeleteAnns COMPONENT_TYPES_model model.model_id
    delete_alias_for_component model.model_id

/-- The `Models.pull` classmethod (`models.py` lines 108-150): project guard,
falsy directory id normalised to `None`, optional directory-alias resolution,
then the filtered query. -/
def Models.pull (env : Env) (db : DBState) (project_id directory_id : Option String) :
    Eff Models :=
  if strTruthy project_id = false then
    Eff.fail (Err.invalidInput "Project ID must be provided")
  else
    let directory_id := if strTruthy directory_id then directory_id else none
    do
      let d2 ← match directory_id with
               | none => pure (none : Option String)
               | some did => do
                   let r ← Models.resolve_directory_alias env did project_id
                   pure (some r)
      let rows ← dbQueryModels db project_id d2
      pure ⟨rows.map Model.from_namedtuple⟩

/-- The `Models.count` classmethod (`models.py` lines 152-191). -/
def Models.count (env : Env) (db : DBState) (project_id directory_id : Option String) :
    Eff Nat :=
  if strTruthy project_id = false then
    Eff.fail (Err.invalidInput "Project ID must be provided")
  else
    let directory_id := if strTruthy directory_id then directory_id else none
    do
      let d2 ← match directory_id with
               | none => pure (none : Option String)
               | some did => do
                   let r ← Models.resolve_directory_alias env did project_id
                   pure (some r)
      let rows ← dbQueryModels db project_id d2
      pure rows.length

/-- Sequential per-member loop of `Models.delete` (`models.py` lines 214-216). -/
def modelsDeleteEach (env : Env) (db : DBState) : List Model → Eff Unit
  | [] => pure ()
  | m :: ms => do
    let _ ← Model.delete env db m
    modelsDeleteEach env db ms

/-- The `Models.delete` classmethod (`models.py` lines 193-216): pull the full
collection for the project, then delete each member in pulled order. -/
def Models.delete (env : Env) (db : DBState) (project_id directory_id : Option String) :
    Eff Unit := do
  let ms ← Models.pull env db project_id directory_id
  modelsDeleteEach env db ms.models

/-- Wire value of a proto string field holding `str(x)` of an optional int:
proto3 default `""`, a decimal rendering of an integer, or Python's
`str(None) = "None"`.  The encoding itself is out of scope (spec section 1);
this type keeps exactly the distinctions `int()` and truthiness observe. -/
inductive TimeStr where
  | empty
  | intStr (n : Int)
  | noneStr
deriving DecidableEq, Repr

/-- Python `str()` applied to an optional integer timestamp. -/
def pyStrOfTime : Option Int → TimeStr
  | none => TimeStr.noneStr
  | some n => TimeStr.intStr n

/-- Python `int(s) if s else None` applied to a wire timestamp: the empty
string is falsy and yields `None`; `int("None")` raises `ValueError`. -/
def pyIntOfTime : TimeStr → Eff (Option Int)
  | TimeStr.empty => pure none
  | TimeStr.intStr n => pure (some n)
  | TimeStr.noneStr => Eff.fail (Err.valueError "invalid literal for int with base 10")

/-- The `PyprDirectory` proto message (fields this layer touches). -/
structure PyprDirectory where
  directory_id : String
  type : String
deriving DecidableEq, Repr

/-- The `PyprModel` proto message: proto3 string fields are never `None`;
an unset field reads as `""`. -/
structure PyprModel where
  model_id : String
  name : String
  project_id : String
  latest_version_id : String
  model_type : String
  sub_model_type : String
  description : String
  directory : PyprDirectory
  created_at : TimeStr
  modified_at : TimeStr
deriving DecidableEq, Repr

/-- Constructing a proto from an optional string: passing `None` for a field
leaves it unset, which reads back as `""`. -/
def protoStr : Option String → String
  | none => ""
  | some s => s

/-- A non-empty proto string reads back as itself, an unset one as `None`
(the `x if x else None` idiom). -/
def strToNone (s : String) : Option String :=
  if s = "" then none else some s

/-- The `Model.to_proto` method (`model.py` lines 428-454). -/
def Model.to_proto (env : Env) (m : Model) : PyprModel :=
  { model_id := protoStr m.model_id
    name := protoStr m.name
    project_id := protoStr m.project_id
    latest_version_id := protoStr m.latest_version_id
    model_type :=
      protoStr (if strTruthy m.model_type then m.model_type.map env.toExternalType else none)
    sub_model_type := protoStr m.sub_model_type
    description := protoStr m.description
    directory := ⟨protoStr m.directory_id, COMPONENT_TYPES_model⟩
    created_at := pyStrOfTime m.created_at
    modified_at := pyStrOfTime m.modified_at }

/-- The `Model.from_proto` classmethod (`model.py` lines 354-426): unset proto
strings become `None` for `model_id`/`name`/`project_id`/`sub_model_type`,
while `directory_id`, `latest_version_id` and `description` keep `""`;
aliases are resolved, timestamps parsed, and the result validated. -/
def Model.from_proto (env : Env) (db : DBState) (p : PyprModel) : Eff Model := do
  let model_id0 := strToNone p.model_id
  let name := strToNone p.name
  let project_id := strToNone p.project_id
  let directory_id0 := p.directory.directory_id
  let model_id ← match model_id0 with
                 | none => pure (none : Option String)
                 | some mid => do
                     let r ← Model.resolve_alias env mid project_id
                     pure (some r)
  let directory_id ← if directory_id0 ≠ "" then do
                       let r ← Model.resolve_directory_alias env directory_id0 project_id
                       pure (some r)
                     else pure (some directory_id0)
  let latest_version_id := some p.latest_version_id
  let model_type :=
    if p.model_type ≠ "" then some (env.toInternalType p.model_type) else none
  let sub_model_type := strToNone p.sub_model_type
  let description := if p.description ≠ "" then some p.description else some ""
  let created_at ← pyIntOfTime p.created_at
  let modified_at ← pyIntOfTime p.modified_at
  let model : Model :=
    { model_id := model_id
      name := name
      project_id := project_id
      latest_version_id := latest_version_id
      directory_id := directory_id
      model_type := model_type
      sub_model_type := sub_model_type
      description := description
      created_at := created_at
      modified_at := modified_at }
  let _ ← Model.validate env db model
  pure model

/-- Sibling rows returned by the store for the name-uniqueness query
(`query(model, fetchone=False, project_id=p)`, the `directory_id` keyword absent). -/
def modelRowsInScope (db : DBState) (p : Option String) : List ModelRow :=
  db.models.filter (fun r => optMatch p r.project_id && optMatch none r.directory_id)

/-- Sibling version rows returned by the store for the label-uniqueness query
and for the version cascade (`query(model_version, fetchone=False,
model_id=mid, model_ids=None)`). -/
def versionRowsOf (db : DBState) (mid : Option String) : List VersionRow :=
  db.versions.filter (fun r => optMatch mid r.model_id && optMatchList none r.model_id)

/-- Store well-formedness for one version row: a truthy, non-alias id, and the
defensive re-pull by `(version_id, model_id)` finds this row again. -/
def versionRowOk (env : Env) (db : DBState) (v : VersionRow) : Prop :=
  strTruthy v.version_id = true ∧ isAliasOpt env v.version_id = false ∧
    db.versions.find?
      (fun r => optMatch v.version_id r.version_id && optMatch v.model_id r.model_id) = some v

instance (env : Env) (db : DBState) (v : VersionRow) : Decidable (versionRowOk env db v) := by
  unfold versionRowOk
  exact inferInstance

/-- Concrete environment with no alias tokens and identity type formatting. -/
def envPlain : Env :=
  { is_alias := fun _ => false
    aliasTarget := fun _ _ => none
    valid_filename := fun s => !(s.contains '/')
    toExternalType := fun t => t
    toInternalType := fun t => t }

/-- Concrete environment where the token `al-tok` is alias syntax and maps to
`m1` inside project `p1`. -/
def envAlias : Env :=
  { is_alias := fun s => s == "al-tok"
    aliasTarget := fun a p => if a == "al-tok" && p == "p1" then some "m1" else none
    valid_filename := fun s => !(s.contains '/')
    toExternalType := fun t => t
    toInternalType := fun t => t }

/-- A fully-populated model row in project `p1`. -/
def rowM1 : ModelRow :=
  { model_id := some "m1", project_id := some "p1", name := some "nm1"
    latest_version_id := some "lv1", model_type := some "t1", sub_model_type := some "st1"
    description := some "d1", directory_id := some "dir1"
    created_at := some 5, modified_at := some 6 }

/-- One of five version rows owned by `m1`. -/
def rowV (i : Nat) : VersionRow :=
  { version_id := some ("v" ++ toString i), model_id := some "m1"
    version := some ("ver" ++ toString i)
    hyperparameters := none, metrics := none, fold_metrics := none
    created_at := some 1, modified_at := some 1 }

/-- Store with `m1` owning versions `v1`..`v5`, matching the spec's cascade
example. -/
def dbFive : DBState :=
  { models := [rowM1]
    versions := [rowV 1, rowV 2, rowV 3, rowV 4, rowV 5]
    directories := [⟨some "dir1", some "p1", some COMPONENT_TYPES_model⟩] }

/-- Store whose only directory record for `dir1` carries a non-model type. -/
def dbWrongDirType : DBState :=
  { models := [rowM1]
    versions := []
    directories := [⟨some "dir1", some "p1", some "DASHBOARD"⟩] }

/-- The model row with an unset description, breaking the wire round trip. -/
def rowNoDesc : ModelRow := { rowM1 with description := none, directory_id := some "dir1" }

/-- Store holding only `rowNoDesc`. -/
def dbNoDesc : DBState := { models := [rowNoDesc], versions := [], directories := [] }

/-- Store for the collection-cascade witness: one healthy model `m1` and a
second row whose id `al-tok` is still alias syntax, both in `p1`. -/
def dbAbort : DBState :=
  { models := [{ rowM1 with name := some "nm1" },
                { rowM1 with model_id := some "al-tok", name := some "nm2" }]
    versions := []
    directories := [] }

/-- Store with a model in `p1` and an in-memory model carrying no project:
used to witness that the sibling query uses the in-memory scope. -/
def dbC10 : DBState :=
  { models := [rowM1], versions := [], directories := [] }

/-- In-memory model referencing directory `dir1` of project `p1`. -/
def mWrongDir : Model :=
  { model_id := some "m1", project_id := some "p1", directory_id := some "dir1" }

/-- Healthy first member of the abort-cascade store. -/
def mDel1 : Model := Model.from_namedtuple { rowM1 with name := some "nm1" }

/-- Second member of the abort-cascade store, whose id is still alias syntax. -/
def mDelAlias : Model :=
  Model.from_namedtuple { rowM1 with model_id := some "al-tok", name := some "nm2" }

/-- Second model in the C2 witness store. -/
def rowM2 : ModelRow := { rowM1 with model_id := some "m2", name := some "zz" }

/-- Third model in the C2 witness store; its stored name fails filename syntax. -/
def rowBad : ModelRow := { rowM1 with model_id := some "m3", name := some "bad/nm" }

/-- Store for the name-validation witness. -/
def dbC2 : DBState := { models := [rowM1, rowM2, rowBad], versions := [], directories := [] }

@[simp] theorem Eff.bind_def {α β : Type} (x : Eff α) (f : α → Eff β) :
    x >>= f = Eff.bind x f := rfl

@[simp] theorem Eff.bind_mk_ok {α β : Type} (t : List Op) (a : α) (f : α → Eff β) :
    Eff.bind ⟨t, .ok a⟩ f = ⟨t ++ (f a).ops, (f a).res⟩ := rfl

@[simp] theorem Eff.bind_mk_error {α β : Type} (t : List Op) (e : Err) (f : α → Eff β) :
    Eff.bind ⟨t, .error e⟩ f = ⟨t, .error e⟩ := rfl

@[simp] theorem Eff.pure_def {α : Type} (a : α) : (pure a : Eff α) = ⟨[], .ok a⟩ := rfl

@[simp] theorem Eff.fail_def {α : Type} (e : Err) : (Eff.fail e : Eff α) = ⟨[], .error e⟩ := rfl

/-- Trace of a sequenced effect: the first trace, then the continuation's
trace when the first step succeeded. -/
theorem Eff.bind_ops {α β : Type} (x : Eff α) (f : α → Eff β) :
    (Eff.bind x f).ops =
      x.ops ++ (match x.res with | .ok a => (f a).ops | .error _ => []) := by
  unfold Eff.bind
  cases x.res <;> simp

/-- Result of a sequenced effect. -/
theorem Eff.bind_res {α β : Type} (x : Eff α) (f : α → Eff β) :
    (Eff.bind x f).res =
      (match x.res with | .ok a => (f a).res | .error e => .error e) := by
  unfold Eff.bind
  cases x.res <;> simp

theorem dbQueryModels_eq (db : DBState) (p : Option String) :
    dbQueryModels db p none = ⟨[Op.queryModels p none], .ok (modelRowsInScope db p)⟩ := rfl

theorem dbQueryVersions_eq (db : DBState) (mid : Option String) :
    dbQueryVersions db mid none = ⟨[Op.queryVersions mid none], .ok (versionRowsOf db mid)⟩ := rfl

/-- The directory stage never raises: its query runs with `fetchone=False`, so
an empty match comes back as `[]` and the `NoDirectoryException` handler is
unreachable. -/
theorem Model.validateDirectory_res (env : Env) (db : DBState) (m : Model) :
    (Model.validateDirectory env db m).res = .ok () := by
  unfold Model.validateDirectory
  cases m.directory_id with
  | none => rfl
  | some did =>
    by_cases h : did = "" <;> simp [h, dbQueryDirectories]

/-- Result of `Model.validate` as the sequence of its three stages. -/
theorem Model.validate_res (env : Env) (db : DBState) (m : Model) :
    (Model.validate env db m).res =
      (match (Model.validateIdentity env db m).res with
       | .error e => .error e
       | .ok _ =>
         match (Model.validateName env db m).res with
         | .error e => .error e
         | .ok _ => (Model.validateDirectory env db m).res) := by
  unfold Model.validate
  simp only [Eff.bind_def, Eff.bind_res]
  cases (Model.validateIdentity env db m).res <;>
    cases hn : (Model.validateName env db m).res <;> simp [hn]

/-- Trace of `Model.validate` as the concatenation of its stages up to the
first failure. -/
theorem Model.validate_ops (env : Env) (db : DBState) (m : Model) :
    (Model.validate env db m).ops =
      (Model.validateIdentity env db m).ops ++
        (match (Model.validateIdentity env db m).res with
         | .error _ => []
         | .ok _ =>
           (Model.validateName env db m).ops ++
             (match (Model.validateName env db m).res with
              | .error _ => []
              | .ok _ => (Model.validateDirectory env db m).ops)) := by
  unfold Model.validate
  simp only [Eff.bind_def, Eff.bind_ops, Eff.bind_res]
  cases (Model.validateIdentity env db m).res <;>
    cases hn : (Model.validateName env db m).res <;> simp [hn]

/-- Result of `ModelVersion.validate` as the sequence of its two stages. -/
theorem ModelVersion.validate_stages_res (env : Env) (db : DBState) (v : ModelVersion) :
    (ModelVersion.validate env db v).res =
      (match (ModelVersion.validateIdentity env db v).res with
       | .error e => .error e
       | .ok _ => (ModelVersion.validateVersion env db v).res) := by
  unfold ModelVersion.validate
  simp only [Eff.bind_def, Eff.bind_res]
  cases (ModelVersion.validateIdentity env db v).res <;> simp

/-- A duplicate-free key list keeps the Python dict identical to the queried
row list. -/
theorem keepLastByModelId_of_nodup :
    ∀ (rows : List ModelRow), (rows.map ModelRow.model_id).Nodup →
      keepLastByModelId rows = rows
  | [], _ => rfl
  | r :: rs, h => by
    rw [List.map_cons, List.nodup_cons] at h
    have h2 : rs.any (fun r2 => r2.model_id == r.model_id) = false := by
      rw [List.any_eq_false]
      intro r2 hr2
      simp only [beq_iff_eq]
      intro hEq
      exact h.1 (hEq ▸ List.mem_map_of_mem ModelRow.model_id hr2)
    unfold keepLastByModelId
    rw [h2]
    simp only [Bool.false_eq_true, if_false]
    rw [keepLastByModelId_of_nodup rs h.2]

/-- Version-side analogue of `keepLastByModelId_of_nodup`. -/
theorem keepLastByVersionId_of_nodup :
    ∀ (rows : List VersionRow), (rows.map VersionRow.version_id).Nodup →
      keepLastByVersionId rows = rows
  | [], _ => rfl
  | r :: rs, h => by
    rw [List.map_cons, List.nodup_cons] at h
    have h2 : rs.any (fun r2 => r2.version_id == r.version_id) = false := by
      rw [List.any_eq_false]
      intro r2 hr2
      simp only [beq_iff_eq]
      intro hEq
      exact h.1 (hEq ▸ List.mem_map_of_mem VersionRow.version_id hr2)
    unfold keepLastByVersionId
    rw [h2]
    simp only [Bool.false_eq_true, if_false]
    rw [keepLastByVersionId_of_nodup rs h.2]

/-- With a truthy `model_id`, the identity stage is the fetch-one query
followed by the pure consistency checks. -/
theorem Model.validateIdentity_eq (env : Env) (db : DBState) (m : Model) (mid : String)
    (hm : m.model_id = some mid) (hne : mid ≠ "") :
    Model.validateIdentity env db m =
      Eff.bind (dbQueryModelOne db mid) (fun row =>
        if strTruthy m.project_id ∧ m.project_id ≠ row.project_id then
          Eff.fail (Err.invalidInput "The model does not belong to the specified project")
        else if env.is_alias mid then
          Eff.fail (Err.invalidInput "Resolve the alias before usage")
        else pure ()) := by
  simp only [Model.validateIdentity, hm, hne]
  rfl

/-- A falsy `model_id` skips the identity stage entirely. -/
theorem Model.validateIdentity_falsy (env : Env) (db : DBState) (m : Model)
    (hm : strTruthy m.model_id = false) :
    Model.validateIdentity env db m = ⟨[], .ok ()⟩ := by
  unfold Model.validateIdentity
  cases hmm : m.model_id with
  | none => rfl
  | some mid =>
    rw [hmm] at hm
    simp only [strTruthy, Bool.not_eq_false'] at hm
    have hmid : mid = "" := beq_iff_eq.mp hm
    simp [hmid]

/-- The identity stage only ever issues a fetch-one model query. -/
theorem Model.validateIdentity_ops (env : Env) (db : DBState) (m : Model) :
    (Model.validateIdentity env db m).ops = [] ∨
      ∃ s, (Model.validateIdentity env db m).ops = [Op.queryModelOne s] := by
  unfold Model.validateIdentity
  cases m.model_id with
  | none => exact Or.inl rfl
  | some mid =>
    by_cases h : mid = ""
    · simp [h]
    · right
      refine ⟨mid, ?_⟩
      simp only [h, if_false, Eff.bind_def, Eff.bind_ops]
      unfold dbQueryModelOne
      cases hf : db.models.find? (fun r => r.model_id == some mid) with
      | none => simp [hf]
      | some R =>
        simp only [hf]
        split <;> simp <;> split <;> simp

/-- Name stage with a truthy candidate name and duplicate-free sibling keys:
one sibling query, then the collision check against the scope siblings, then
the syntax check exactly when the candidate differs from the own record. -/
theorem Model.validateName_spec (env : Env) (db : DBState) (m : Model) (nm : String)
    (hnm : m.name = some nm) (hne : nm ≠ "")
    (hnodup : ((modelRowsInScope db m.project_id).map ModelRow.model_id).Nodup) :
    Model.validateName env db m =
      ⟨[Op.queryModels m.project_id none],
        if (modelRowsInScope db m.project_id).any
            (fun r => r.model_id != m.model_id && strTruthy r.name && r.name == some nm) then
          .error (Err.invalidInput ("A model with name " ++ nm ++ " already exists"))
        else
          match (modelRowsInScope db m.project_id).find? (fun r => r.model_id == m.model_id) with
          | none =>
            if env.valid_filename nm then .ok () else .error (Err.invalidInput "Invalid name")
          | some own =>
            if own.name ≠ some nm then
              if env.valid_filename nm then .ok () else .error (Err.invalidInput "Invalid name")
            else .ok ()⟩ := by
  simp only [Model.validateName, hnm, hne, if_false]
  simp only [Eff.bind_def, dbQueryModels_eq, Eff.bind_mk_ok]
  rw [keepLastByModelId_of_nodup _ hnodup]
  by_cases hany : (modelRowsInScope db m.project_id).any
      (fun r => r.model_id != m.model_id && strTruthy r.name && r.name == some nm) = true
  · simp [hany]
  · simp only [Bool.not_eq_true] at hany
    simp only [hany, Bool.false_eq_true, if_false]
    cases hfind : (modelRowsInScope db m.project_id).find? (fun r => r.model_id == m.model_id) with
    | none =>
      by_cases hv : env.valid_filename nm = true <;> simp [hv]
    | some own =>
      by_cases hch : own.name = some nm
      · simp [hch]
      · by_cases hv : env.valid_filename nm = true <;> simp [hch, hv]

/-- Label stage of a version with a truthy candidate label and duplicate-free
sibling keys. -/
theorem ModelVersion.validateVersion_spec (env : Env) (db : DBState) (v : ModelVersion)
    (nm : String) (hnm : v.version = some nm) (hne : nm ≠ "")
    (hnodup : ((versionRowsOf db v.model_id).map VersionRow.version_id).Nodup) :
    ModelVersion.validateVersion env db v =
      ⟨[Op.queryVersions v.model_id none],
        if (versionRowsOf db v.model_id).any
            (fun r => r.version_id != v.version_id && strTruthy r.version && r.version == some nm) then
          .error (Err.invalidInput ("A model version " ++ nm ++ " already exists"))
        else
          match (versionRowsOf db v.model_id).find? (fun r => r.version_id == v.version_id) with
          | none =>
            if env.valid_filename nm then .ok () else .error (Err.invalidInput "Invalid Version")
          | some own =>
            if own.version ≠ some nm then
              if env.valid_filename nm then .ok () else .error (Err.invalidInput "Invalid Version")
            else .ok ()⟩ := by
  simp only [ModelVersion.validateVersion, hnm, hne, if_false]
  simp only [Eff.bind_def, dbQueryVersions_eq, Eff.bind_mk_ok]
  rw [keepLastByVersionId_of_nodup _ hnodup]
  by_cases hany : (versionRowsOf db v.model_id).any
      (fun r => r.version_id != v.version_id && strTruthy r.version && r.version == some nm) = true
  · simp [hany]
  · simp only [Bool.not_eq_true] at hany
    simp only [hany, Bool.false_eq_true, if_false]
    cases hfind : (versionRowsOf db v.model_id).find? (fun r => r.version_id == v.version_id) with
    | none =>
      by_cases hv : env.valid_filename nm = true <;> simp [hv]
    | some own =>
      by_cases hch : own.version = some nm
      · simp [hch]
      · by_cases hv : env.valid_filename nm = true <;> simp [hch, hv]

/-- A falsy candidate name skips the whole name stage. -/
theorem Model.validateName_falsy (env : Env) (db : DBState) (m : Model)
    (hm : strTruthy m.name = false) :
    Model.validateName env db m = ⟨[], .ok ()⟩ := by
  unfold Model.validateName
  cases hmm : m.name with
  | none => rfl
  | some nm =>
    rw [hmm] at hm
    simp only [strTruthy, Bool.not_eq_false'] at hm
    have hn : nm = "" := beq_iff_eq.mp hm
    simp [hn]

/-- With a truthy `version_id`, the version identity stage is the fetch-one
query followed by the pure consistency checks. -/
theorem ModelVersion.identity_stage_eq (env : Env) (db : DBState) (v : ModelVersion)
    (vid : String) (hv : v.version_id = some vid) (hne : vid ≠ "") :
    ModelVersion.validateIdentity env db v =
      Eff.bind (dbQueryVersionOne db (some vid) none) (fun row =>
        if strTruthy v.model_id ∧ v.model_id ≠ row.model_id then
          Eff.fail (Err.invalidInput "The model version does not belong to the specified model")
        else if env.is_alias vid then
          Eff.fail (Err.invalidInput "Resolve the alias before usage")
        else pure ()) := by
  simp only [ModelVersion.validateIdentity, hv, hne]
  rfl

/-- A falsy `version_id` skips the version identity stage. -/
theorem ModelVersion.identity_stage_falsy (env : Env) (db : DBState) (v : ModelVersion)
    (hm : strTruthy v.version_id = false) :
    ModelVersion.validateIdentity env db v = ⟨[], .ok ()⟩ := by
  unfold ModelVersion.validateIdentity
  cases hmm : v.version_id with
  | none => rfl
  | some vid =>
    rw [hmm] at hm
    simp only [strTruthy, Bool.not_eq_false'] at hm
    have hn : vid = "" := beq_iff_eq.mp hm
    simp [hn]

/-- Two effects are equal when their traces and results are. -/
theorem Eff.ext {α : Type} {x y : Eff α} (h1 : x.ops = y.ops) (h2 : x.res = y.res) : x = y := by
  cases x
  cases y
  simp only at h1 h2
  rw [h1, h2]

/-- Cascade step for one well-formed version row: re-pull, row delete, alias
delete — and nothing else (in particular no annotation delete). -/
theorem ModelVersion.delete_row_spec (env : Env) (db : DBState) (v : VersionRow)
    (h : versionRowOk env db v) :
    ModelVersion.delete env db (ModelVersion.from_namedtuple v) =
      ⟨[Op.queryVersionOne v.version_id v.model_id,
        Op.deleteVersionRow v.version_id v.model_id,
        Op.aliasDelete v.version_id], .ok ()⟩ := by
  obtain ⟨ht, hal, hfind⟩ := h
  cases hvid : v.version_id with
  | none => rw [hvid] at ht; simp [strTruthy] at ht
  | some vid =>
    rw [hvid] at ht hal hfind
    simp only [strTruthy, Bool.not_eq_true'] at ht
    have hvne : vid ≠ "" := by
      intro hc
      rw [hc] at ht
      simp at ht
    simp only [isAliasOpt] at hal
    unfold ModelVersion.delete
    simp only [ModelVersion.from_namedtuple, hvid, isAliasOpt, hal, Bool.false_eq_true, if_false]
    unfold ModelVersion.pull
    simp only [hvne, if_false]
    unfold ModelVersion.resolve_alias
    simp only [hal, if_true, Eff.bind_def, Eff.pure_def, Eff.bind_mk_ok]
    unfold dbQueryVersionOne
    simp only [hfind, Eff.bind_mk_ok, List.nil_append]
    unfold dbDeleteVersionRow delete_alias_for_component
    simp [ModelVersion.from_namedtuple, hvid]

theorem Eff.bind_of_ok {α β : Type} {x : Eff α} (f : α → Eff β) (a : α) (h : x.res = .ok a) :
    Eff.bind x f = ⟨x.ops ++ (f a).ops, (f a).res⟩ := by
  unfold Eff.bind
  rw [h]

theorem Eff.bind_of_error {α β : Type} {x : Eff α} (f : α → Eff β) (e : Err)
    (h : x.res = .error e) : Eff.bind x f = ⟨x.ops, .error e⟩ := by
  unfold Eff.bind
  rw [h]

/-- A member loop over versions that all delete successfully issues each
member's requests in order. -/
theorem versionsDeleteEach_ok (env : Env) (db : DBState) :
    ∀ (l : List ModelVersion), (∀ y ∈ l, (ModelVersion.delete env db y).res = .ok ()) →
      versionsDeleteEach env db l =
        ⟨(l.map (fun y => (ModelVersion.delete env db y).ops)).join, .ok ()⟩
  | [], _ => rfl
  | y :: l, h => by
    unfold versionsDeleteEach
    simp only [Eff.bind_def]
    rw [Eff.bind_of_ok _ () (h y (List.mem_cons_self y l))]
    rw [versionsDeleteEach_ok env db l (fun z hz => h z (List.mem_cons_of_mem y hz))]
    simp

/-- A member loop over versions stops at the first failing member and
propagates its error unchanged. -/
theorem versionsDeleteEach_abort (env : Env) (db : DBState) :
    ∀ (l1 : List ModelVersion) (x : ModelVersion) (l2 : List ModelVersion) (e : Err),
      (∀ y ∈ l1, (ModelVersion.delete env db y).res = .ok ()) →
      (ModelVersion.delete env db x).res = .error e →
      versionsDeleteEach env db (l1 ++ x :: l2) =
        ⟨(l1.map (fun y => (ModelVersion.delete env db y).ops)).join ++
          (ModelVersion.delete env db x).ops, .error e⟩
  | [], x, l2, e, _, hx => by
    unfold versionsDeleteEach
    simp only [List.nil_append, Eff.bind_def, List.map_nil, List.join_nil]
    rw [Eff.bind_of_error _ e hx]
  | y :: l1, x, l2, e, h, hx => by
    unfold versionsDeleteEach
    simp only [List.cons_append, Eff.bind_def]
    rw [Eff.bind_of_ok _ () (h y (List.mem_cons_self y _))]
    rw [versionsDeleteEach_abort env db l1 x l2 e (fun z hz => h z (List.mem_cons_of_mem y hz)) hx]
    simp

/-- A member loop over models that all delete successfully issues each
member's requests in order. -/
theorem modelsDeleteEach_ok (env : Env) (db : DBState) :
    ∀ (l : List Model), (∀ y ∈ l, (Model.delete env db y).res = .ok ()) →
      modelsDeleteEach env db l =
        ⟨(l.map (fun y => (Model.delete env db y).ops)).join, .ok ()⟩
  | [], _ => rfl
  | y :: l, h => by
    unfold modelsDeleteEach
    simp only [Eff.bind_def]
    rw [Eff.bind_of_ok _ () (h y (List.mem_cons_self y l))]
    rw [modelsDeleteEach_ok env db l (fun z hz => h z (List.mem_cons_of_mem y hz))]
    simp

/-- A member loop over models stops at the first failing member and propagates
its error unchanged. -/
theorem modelsDeleteEach_abort (env : Env) (db : DBState) :
    ∀ (l1 : List Model) (x : Model) (l2 : List Model) (e : Err),
      (∀ y ∈ l1, (Model.delete env db y).res = .ok ()) →
      (Model.delete env db x).res = .error e →
      modelsDeleteEach env db (l1 ++ x :: l2) =
        ⟨(l1.map (fun y => (Model.delete env db y).ops)).join ++
          (Model.delete env db x).ops, .error e⟩
  | [], x, l2, e, _, hx => by
    unfold modelsDeleteEach
    simp only [List.nil_append, Eff.bind_def, List.map_nil, List.join_nil]
    rw [Eff.bind_of_error _ e hx]
  | y :: l1, x, l2, e, h, hx => by
    unfold modelsDeleteEach
    simp only [List.cons_append, Eff.bind_def]
    rw [Eff.bind_of_ok _ () (h y (List.mem_cons_self y _))]
    rw [modelsDeleteEach_abort env db l1 x l2 e (fun z hz => h z (List.mem_cons_of_mem y hz)) hx]
    simp

/-- Pulling the version collection for a truthy model id: one many-rows query. -/
theorem ModelVersions.pull_ok (env : Env) (db : DBState) (mid : String) (hne : mid ≠ "") :
    ModelVersions.pull env db (some mid) none =
      ⟨[Op.queryVersions (some mid) none],
        .ok ⟨(versionRowsOf db (some mid)).map ModelVersion.from_namedtuple⟩⟩ := by
  unfold ModelVersions.pull
  have ht : strTruthy (some mid) = true := by simp [strTruthy, hne]
  simp only [ht, Bool.true_eq_false, and_false, if_false]
  simp only [Eff.bind_def, dbQueryVersions_eq, Eff.bind_mk_ok, Eff.pure_def]
  simp

/-- The full version cascade for a model id whose version rows are all
well-formed: the collection query, then per version its re-pull, row delete
and alias delete, in pulled order. -/
theorem ModelVersions.delete_cascade_spec (env : Env) (db : DBState) (mid : String) (hne : mid ≠ "")
    (h : ∀ v ∈ versionRowsOf db (some mid), versionRowOk env db v) :
    ModelVersions.delete env db (some mid) =
      ⟨Op.queryVersions (some mid) none ::
        ((versionRowsOf db (some mid)).map (fun v =>
          [Op.queryVersionOne v.version_id v.model_id,
           Op.deleteVersionRow v.version_id v.model_id,
           Op.aliasDelete v.version_id])).join, .ok ()⟩ := by
  unfold ModelVersions.delete
  simp only [Eff.bind_def]
  rw [ModelVersions.pull_ok env db mid hne]
  rw [Eff.bind_of_ok _ ⟨(versionRowsOf db (some mid)).map ModelVersion.from_namedtuple⟩ rfl]
  have hall : ∀ y ∈ (versionRowsOf db (some mid)).map ModelVersion.from_namedtuple,
      (ModelVersion.delete env db y).res = .ok () := by
    intro y hy
    obtain ⟨v, hv, rfl⟩ := List.mem_map.mp hy
    rw [ModelVersion.delete_row_spec env db v (h v hv)]
  rw [versionsDeleteEach_ok env db _ hall]
  apply Eff.ext
  · simp only [List.map_map]
    have hmaps : (versionRowsOf db (some mid)).map
        ((fun y => (ModelVersion.delete env db y).ops) ∘ ModelVersion.from_namedtuple) =
        (versionRowsOf db (some mid)).map (fun v =>
          [Op.queryVersionOne v.version_id v.model_id,
           Op.deleteVersionRow v.version_id v.model_id,
           Op.aliasDelete v.version_id]) := by
      apply List.map_congr_left
      intro v hv
      simp only [Function.comp_apply]
      rw [ModelVersion.delete_row_spec env db v (h v hv)]
    simp [hmaps]
  · simp

/-- The full `Model.delete` cascade for a well-formed store: the defensive
re-pull, the version cascade, the model row delete, the blob-namespace delete
of `project_id/model_id`, the annotation cleanup and the alias cleanup, in
that order. -/
theorem Model.delete_spec (env : Env) (db : DBState) (m : Model) (mid p : String)
    (R : ModelRow)
    (hm : m.model_id = some mid) (hne : mid ≠ "") (hal : env.is_alias mid = false)
    (hfind : db.models.find? (fun r => r.model_id == some mid) = some R)
    (hproj : R.project_id = some p)
    (hrows : ∀ v ∈ versionRowsOf db (some mid), versionRowOk env db v) :
    Model.delete env db m =
      ⟨[Op.queryModelOne mid, Op.queryVersions (some mid) none] ++
        ((versionRowsOf db (some mid)).map (fun v =>
          [Op.queryVersionOne v.version_id v.model_id,
           Op.deleteVersionRow v.version_id v.model_id,
           Op.aliasDelete v.version_id])).join ++
        [Op.deleteModelRow (some mid),
         Op.blobDeleteDir OBJECT_STORE_BUCKET_model (p ++ "/" ++ mid),
         Op.annsDelete COMPONENT_TYPES_model (some mid),
         Op.aliasDelete (some mid)], .ok ()⟩ := by
  have hRmid : R.model_id = some mid := by
    have hp := List.find?_some hfind
    exact beq_iff_eq.mp hp
  unfold Model.delete
  simp only [hm, isAliasOpt, hal, Bool.false_eq_true, if_false]
  unfold Model.pull
  simp only [hne, if_false]
  unfold Model.resolve_alias
  simp only [hal, if_true, Eff.bind_def, Eff.pure_def, Eff.bind_mk_ok]
  unfold dbQueryModelOne
  simp only [hfind, Eff.bind_mk_ok, List.nil_append]
  rw [Eff.bind_of_ok _ () (by rw [ModelVersions.delete_cascade_spec env db mid hne hrows])]
  rw [ModelVersions.delete_cascade_spec env db mid hne hrows]
  simp only [Model.from_namedtuple, hRmid, hproj]
  unfold dbDeleteModelRow objectStoreDeleteDirectory dbDeleteAnns delete_alias_for_component
  apply Eff.ext <;> simp

/-- An optional string other than `some ""` survives the proto boundary:
unset maps to `""` and back to `None`, a non-empty value to itself. -/
theorem strToNone_protoStr (o : Option String) (h : o ≠ some "") :
    strToNone (protoStr o) = o := by
  cases o with
  | none => rfl
  | some s =>
    have hs : s ≠ "" := fun hc => h (by rw [hc])
    simp [protoStr, strToNone, hs]

theorem protoStr_some (s : String) : protoStr (some s) = s := rfl

theorem protoStr_none : protoStr none = "" := rfl

/-- Round trip through the wire form returns the identical entity for a model
whose optional string fields are not the empty string, whose
`latest_version_id`, `description`, `directory_id` and timestamps are set,
whose ids are not alias tokens, whose model-type formatting is invertible,
and which passes validation. -/
theorem Model.roundtrip_aux (env : Env) (db : DBState) (m : Model)
    (hal : ∀ s, env.is_alias s = false)
    (hmt : ∀ t, m.model_type = some t →
      env.toInternalType (env.toExternalType t) = t ∧ env.toExternalType t ≠ "")
    (h1 : m.model_id ≠ some "") (h2 : m.project_id ≠ some "")
    (h3 : m.name ≠ some "") (h4 : m.model_type ≠ some "")
    (h5 : m.sub_model_type ≠ some "")
    (hlat : ∃ s, m.latest_version_id = some s) (hdesc : ∃ s, m.description = some s)
    (hdir : ∃ s, m.directory_id = some s)
    (hca : ∃ n, m.created_at = some n) (hma : ∃ n, m.modified_at = some n)
    (hval : (Model.validate env db m).res = .ok ()) :
    (Model.from_proto env db (Model.to_proto env m)).res = .ok m := by
  obtain ⟨mid0, proj0, nm0, lat0, mt0, smt0, desc0, dir0, ca0, ma0⟩ := m
  simp only at h1 h2 h3 h4 h5 hmt hlat hdesc hdir hca hma hval
  obtain ⟨sl, rfl⟩ := hlat
  obtain ⟨d, rfl⟩ := hdesc
  obtain ⟨sd, rfl⟩ := hdir
  obtain ⟨ca, rfl⟩ := hca
  obtain ⟨ma, rfl⟩ := hma
  have hra : ∀ (s : String) (proj : Option String),
      Model.resolve_alias env s proj = (pure s : Eff String) := by
    intro s proj
    simp [Model.resolve_alias, hal]
  have hrda : ∀ (s : String) (proj : Option String),
      Model.resolve_directory_alias env s proj = (pure s : Eff String) := by
    intro s proj
    simp [Model.resolve_directory_alias, hal]
  unfold Model.from_proto Model.to_proto
  simp only [strToNone_protoStr _ h1, strToNone_protoStr _ h2, strToNone_protoStr _ h3,
    strToNone_protoStr _ h5, protoStr_some, protoStr_none]
  cases mid0 <;> cases mt0 <;>
    rcases eq_or_ne sd "" with rfl | hsd0 <;>
    rcases eq_or_ne d "" with rfl | hd0 <;>
    simp_all [pyStrOfTime, pyIntOfTime, protoStr_some, protoStr_none,
      Eff.bind_res, strTruthy]

/-- C9: every pull guard fires before any store or resolver request: `Model.pull`
with a falsy model id and `ModelVersion.pull` with a falsy version id fail
`NoModelException` ("... ID must be provided"); `Models.pull` with a falsy
project id and `ModelVersions.pull` with falsy model id and model ids fail
`InvalidInputException`; in each case the request trace is empty. -/
theorem spec_c9_pull_guards :
    (∀ (env : Env) (db : DBState) (mid pid : Option String), strTruthy mid = false →
      Model.pull env db mid pid = ⟨[], .error (Err.noModel "Model ID must be provided")⟩) ∧
    (∀ (env : Env) (db : DBState) (vid mid pid : Option String), strTruthy vid = false →
      ModelVersion.pull env db vid mid pid =
        ⟨[], .error (Err.noModel "Version ID must be provided")⟩) ∧
    (∀ (env : Env) (db : DBState) (pid did : Option String), strTruthy pid = false →
      Models.pull env db pid did = ⟨[], .error (Err.invalidInput "Project ID must be provided")⟩) ∧
    (∀ (env : Env) (db : DBState) (mid : Option String) (mids : Option (List String)),
      strTruthy mid = false → listTruthy mids = false →
      ModelVersions.pull env db mid mids =
        ⟨[], .error (Err.invalidInput "Atleast one Model ID must be provided")⟩) := by
  refine ⟨?_, ?_, ?_, ?_⟩
  · intro env db mid pid h
    cases mid with
    | none => rfl
    | some s =>
      simp only [strTruthy, Bool.not_eq_false'] at h
      have hs : s = "" := beq_iff_eq.mp h
      simp [Model.pull, hs]
  · intro env db vid mid pid h
    cases vid with
    | none => rfl
    | some s =>
      simp only [strTruthy, Bool.not_eq_false'] at h
      have hs : s = "" := beq_iff_eq.mp h
      simp [ModelVersion.pull, hs]
  · intro env db pid did h
    simp [Models.pull, h]
  · intro env db mid mids h hl
    simp [ModelVersions.pull, h, hl]

theorem spec_c9_witness :
    Model.pull envPlain dbFive none none =
      ⟨[], .error (Err.noModel "Model ID must be provided")⟩ ∧
    ModelVersion.pull envPlain dbFive none none none =
      ⟨[], .error (Err.noModel "Version ID must be provided")⟩ ∧
    Models.pull envPlain dbFive none none =
      ⟨[], .error (Err.invalidInput "Project ID must be provided")⟩ ∧
    ModelVersions.pull envPlain dbFive none none =
      ⟨[], .error (Err.invalidInput "Atleast one Model ID must be provided")⟩ :=
  ⟨spec_c9_pull_guards.1 envPlain dbFive none none rfl,
   spec_c9_pull_guards.2.1 envPlain dbFive none none none rfl,
   spec_c9_pull_guards.2.2.1 envPlain dbFive none none rfl,
   spec_c9_pull_guards.2.2.2 envPlain dbFive none none rfl rfl⟩

/-- C3: for both entities, `resolve_alias` returns a non-alias id unchanged
with no collaborator request; an alias with a falsy project fails
`InvalidInputException` ("Project must be provided with an alias"); an alias
with a project is delegated to the resolver, returning the mapped canonical
id, or propagating the resolver's project-scoped not-found error when no
mapping exists. -/
theorem spec_c3_resolve_alias :
    (∀ (env : Env) (id : String) (proj : Option String),
      (env.is_alias id = false → Model.resolve_alias env id proj = ⟨[], .ok id⟩) ∧
      (env.is_alias id = true → strTruthy proj = false →
        Model.resolve_alias env id proj =
          ⟨[], .error (Err.invalidInput "Project must be provided with an alias")⟩) ∧
      (∀ p : String, env.is_alias id = true → proj = some p → p ≠ "" →
        (∀ cid, env.aliasTarget id p = some cid →
          Model.resolve_alias env id proj = ⟨[Op.aliasResolve id p], .ok cid⟩) ∧
        (env.aliasTarget id p = none →
          Model.resolve_alias env id proj =
            ⟨[Op.aliasResolve id p], .error (Err.noProjectAlias "No such alias in the project")⟩))) ∧
    (∀ (env : Env) (id : String) (proj : Option String),
      (env.is_alias id = false → ModelVersion.resolve_alias env id proj = ⟨[], .ok id⟩) ∧
      (env.is_alias id = true → strTruthy proj = false →
        ModelVersion.resolve_alias env id proj =
          ⟨[], .error (Err.invalidInput "Project must be provided with an alias")⟩) ∧
      (∀ p : String, env.is_alias id = true → proj = some p → p ≠ "" →
        (∀ cid, env.aliasTarget id p = some cid →
          ModelVersion.resolve_alias env id proj = ⟨[Op.aliasResolve id p], .ok cid⟩) ∧
        (env.aliasTarget id p = none →
          ModelVersion.resolve_alias env id proj =
            ⟨[Op.aliasResolve id p], .error (Err.noProjectAlias "No such alias in the project")⟩))) := by
  constructor
  · intro env id proj
    refine ⟨?_, ?_, ?_⟩
    · intro h
      simp [Model.resolve_alias, h]
    · intro h hp
      simp [Model.resolve_alias, h, hp]
    · intro p h hp hpne
      subst hp
      have ht : strTruthy (some p) = true := by simp [strTruthy, hpne]
      constructor
      · intro cid hcid
        simp [Model.resolve_alias, h, ht, to_project_component_id, hcid]
      · intro hnone
        simp [Model.resolve_alias, h, ht, to_project_component_id, hnone]
  · intro env id proj
    refine ⟨?_, ?_, ?_⟩
    · intro h
      simp [ModelVersion.resolve_alias, h]
    · intro h hp
      simp [ModelVersion.resolve_alias, h, hp]
    · intro p h hp hpne
      subst hp
      have ht : strTruthy (some p) = true := by simp [strTruthy, hpne]
      constructor
      · intro cid hcid
        simp [ModelVersion.resolve_alias, h, ht, to_project_component_id, hcid]
      · intro hnone
        simp [ModelVersion.resolve_alias, h, ht, to_project_component_id, hnone]

theorem spec_c3_witness :
    Model.resolve_alias envAlias "m1" none = ⟨[], .ok "m1"⟩ ∧
    Model.resolve_alias envAlias "al-tok" none =
      ⟨[], .error (Err.invalidInput "Project must be provided with an alias")⟩ ∧
    Model.resolve_alias envAlias "al-tok" (some "p1") =
      ⟨[Op.aliasResolve "al-tok" "p1"], .ok "m1"⟩ ∧
    Model.resolve_alias envAlias "al-tok" (some "p2") =
      ⟨[Op.aliasResolve "al-tok" "p2"],
        .error (Err.noProjectAlias "No such alias in the project")⟩ ∧
    ModelVersion.resolve_alias envAlias "v9" none = ⟨[], .ok "v9"⟩ :=
  ⟨(spec_c3_resolve_alias.1 envAlias "m1" none).1 (by decide),
   (spec_c3_resolve_alias.1 envAlias "al-tok" none).2.1 (by decide) rfl,
   ((spec_c3_resolve_alias.1 envAlias "al-tok" (some "p1")).2.2 "p1" (by decide) rfl
      (by decide)).1 "m1" (by decide),
   ((spec_c3_resolve_alias.1 envAlias "al-tok" (some "p2")).2.2 "p2" (by decide) rfl
      (by decide)).2 (by decide),
   (spec_c3_resolve_alias.2 envAlias "v9" none).1 (by decide)⟩

/-- C6: the directory stage issues the scoped, type-tagged query the claim
describes, but because the query runs with `fetchone=False` the store returns
an empty list instead of raising `NoDirectoryException` when the directory
exists only under a different type, so the advertised translation to
`InvalidInputException` ("cannot be in a different directory type") never
fires: validation succeeds on a directory of the wrong type.  This evaluates
the code at the failing input for the code-bug verdict. -/
theorem spec_c6_directory_type_check_vacuous :
    Op.queryDirectories (some "dir1") (some "p1") COMPONENT_TYPES_model ∈
      (Model.validate envPlain dbWrongDirType mWrongDir).ops ∧
    (Model.validate envPlain dbWrongDirType mWrongDir).res = .ok () := by
  decide

/-- C1: for a model with a resolved, existing id, `Model.delete` issues the
full cascade: per owned version one row delete plus one alias delete (via the
version collection's delete, which re-pulls each version first), then the
model's own row delete, then one recursive blob-namespace delete of
`project_id/model_id`, then one annotation bulk delete keyed by the model
component type and the model id, then one alias delete for the model id —
children before the model row, and the model row before the model's
blob/annotation/alias cleanup. -/
theorem spec_c1_model_delete_cascade (env : Env) (db : DBState) (m : Model)
    (mid p : String) (R : ModelRow)
    (hm : m.model_id = some mid) (hne : mid ≠ "") (hal : env.is_alias mid = false)
    (hfind : db.models.find? (fun r => r.model_id == some mid) = some R)
    (hproj : R.project_id = some p)
    (hrows : ∀ v ∈ versionRowsOf db (some mid), versionRowOk env db v) :
    Model.delete env db m =
      ⟨[Op.queryModelOne mid, Op.queryVersions (some mid) none] ++
        ((versionRowsOf db (some mid)).map (fun v =>
          [Op.queryVersionOne v.version_id v.model_id,
           Op.deleteVersionRow v.version_id v.model_id,
           Op.aliasDelete v.version_id])).join ++
        [Op.deleteModelRow (some mid),
         Op.blobDeleteDir OBJECT_STORE_BUCKET_model (p ++ "/" ++ mid),
         Op.annsDelete COMPONENT_TYPES_model (some mid),
         Op.aliasDelete (some mid)], .ok ()⟩ :=
  Model.delete_spec env db m mid p R hm hne hal hfind hproj hrows

theorem spec_c1_witness :
    Model.delete envPlain dbFive { model_id := some "m1" } =
      ⟨[Op.queryModelOne "m1", Op.queryVersions (some "m1") none] ++
        ((versionRowsOf dbFive (some "m1")).map (fun v =>
          [Op.queryVersionOne v.version_id v.model_id,
           Op.deleteVersionRow v.version_id v.model_id,
           Op.aliasDelete v.version_id])).join ++
        [Op.deleteModelRow (some "m1"),
         Op.blobDeleteDir OBJECT_STORE_BUCKET_model ("p1" ++ "/" ++ "m1"),
         Op.annsDelete COMPONENT_TYPES_model (some "m1"),
         Op.aliasDelete (some "m1")], .ok ()⟩ :=
  spec_c1_model_delete_cascade envPlain dbFive { model_id := some "m1" } "m1" "p1" rowM1
    rfl (by decide) rfl (by decide) (by decide) (by decide)

/-- C5 counterexample: `ModelVersion.delete` completes successfully while
issuing no annotation delete at all, so the annotation-cleanup step does not
apply to both entity types as claimed — it is a Model-only step. -/
theorem spec_c5_counterexample :
    (ModelVersion.delete envPlain dbFive (ModelVersion.from_namedtuple (rowV 1))).res =
      .ok () ∧
    ((ModelVersion.delete envPlain dbFive (ModelVersion.from_namedtuple (rowV 1))).ops.filter
      (fun op => match op with | Op.annsDelete _ _ => true | _ => false)) = [] := by
  decide

/-- C5 amended: alias cleanup is issued by the delete of both entity types;
annotation cleanup is issued by `Model.delete` only — `ModelVersion.delete`
issues no annotation delete. -/
theorem spec_c5_entity_cleanup (env : Env) (db : DBState) :
    (∀ (m : Model) (mid p : String) (R : ModelRow),
      m.model_id = some mid → mid ≠ "" → env.is_alias mid = false →
      db.models.find? (fun r => r.model_id == some mid) = some R →
      R.project_id = some p →
      (∀ v ∈ versionRowsOf db (some mid), versionRowOk env db v) →
      Op.annsDelete COMPONENT_TYPES_model (some mid) ∈ (Model.delete env db m).ops ∧
      Op.aliasDelete (some mid) ∈ (Model.delete env db m).ops) ∧
    (∀ v : VersionRow, versionRowOk env db v →
      Op.aliasDelete v.version_id ∈
        (ModelVersion.delete env db (ModelVersion.from_namedtuple v)).ops ∧
      ∀ (t : String) (cid : Option String),
        Op.annsDelete t cid ∉
          (ModelVersion.delete env db (ModelVersion.from_namedtuple v)).ops) := by
  constructor
  · intro m mid p R hm hne hal hfind hproj hrows
    rw [Model.delete_spec env db m mid p R hm hne hal hfind hproj hrows]
    simp
  · intro v hv
    rw [ModelVersion.delete_row_spec env db v hv]
    constructor
    · simp
    · intro t cid
      simp

theorem spec_c5_witness :
    (Op.annsDelete COMPONENT_TYPES_model (some "m1") ∈
        (Model.delete envPlain dbFive { model_id := some "m1" }).ops ∧
      Op.aliasDelete (some "m1") ∈
        (Model.delete envPlain dbFive { model_id := some "m1" }).ops) ∧
    (Op.aliasDelete (rowV 1).version_id ∈
        (ModelVersion.delete envPlain dbFive (ModelVersion.from_namedtuple (rowV 1))).ops ∧
      ∀ (t : String) (cid : Option String),
        Op.annsDelete t cid ∉
          (ModelVersion.delete envPlain dbFive (ModelVersion.from_namedtuple (rowV 1))).ops) :=
  ⟨(spec_c5_entity_cleanup envPlain dbFive).1 { model_id := some "m1" } "m1" "p1" rowM1
      rfl (by decide) rfl (by decide) (by decide) (by decide),
    (spec_c5_entity_cleanup envPlain dbFive).2 (rowV 1) (by decide)⟩

/-- C8: a collection delete pulls the full collection and deletes members
sequentially in pulled order; when every member succeeds all member traces
are issued in order, and when a member fails the loop stops there — later
members are untouched and that member's error is surfaced unchanged. -/
theorem spec_c8_collection_cascade :
    (∀ (env : Env) (db : DBState) (pid did : Option String) (t0 : List Op)
        (l1 : List Model) (x : Model) (l2 : List Model) (e : Err),
      Models.pull env db pid did = ⟨t0, .ok ⟨l1 ++ x :: l2⟩⟩ →
      (∀ y ∈ l1, (Model.delete env db y).res = .ok ()) →
      (Model.delete env db x).res = .error e →
      Models.delete env db pid did =
        ⟨t0 ++ ((l1.map (fun y => (Model.delete env db y).ops)).join ++
          (Model.delete env db x).ops), .error e⟩) ∧
    (∀ (env : Env) (db : DBState) (pid did : Option String) (t0 : List Op) (l : List Model),
      Models.pull env db pid did = ⟨t0, .ok ⟨l⟩⟩ →
      (∀ y ∈ l, (Model.delete env db y).res = .ok ()) →
      Models.delete env db pid did =
        ⟨t0 ++ (l.map (fun y => (Model.delete env db y).ops)).join, .ok ()⟩) ∧
    (∀ (env : Env) (db : DBState) (mid : Option String) (t0 : List Op)
        (l1 : List ModelVersion) (x : ModelVersion) (l2 : List ModelVersion) (e : Err),
      ModelVersions.pull env db mid none = ⟨t0, .ok ⟨l1 ++ x :: l2⟩⟩ →
      (∀ y ∈ l1, (ModelVersion.delete env db y).res = .ok ()) →
      (ModelVersion.delete env db x).res = .error e →
      ModelVersions.delete env db mid =
        ⟨t0 ++ ((l1.map (fun y => (ModelVersion.delete env db y).ops)).join ++
          (ModelVersion.delete env db x).ops), .error e⟩) ∧
    (∀ (env : Env) (db : DBState) (mid : Option String) (t0 : List Op)
        (l : List ModelVersion),
      ModelVersions.pull env db mid none = ⟨t0, .ok ⟨l⟩⟩ →
      (∀ y ∈ l, (ModelVersion.delete env db y).res = .ok ()) →
      ModelVersions.delete env db mid =
        ⟨t0 ++ (l.map (fun y => (ModelVersion.delete env db y).ops)).join, .ok ()⟩) := by
  refine ⟨?_, ?_, ?_, ?_⟩
  · intro env db pid did t0 l1 x l2 e hpull h1 hx
    unfold Models.delete
    simp only [Eff.bind_def, hpull, Eff.bind_mk_ok]
    rw [modelsDeleteEach_abort env db l1 x l2 e h1 hx]
  · intro env db pid did t0 l hpull h1
    unfold Models.delete
    simp only [Eff.bind_def, hpull, Eff.bind_mk_ok]
    rw [modelsDeleteEach_ok env db l h1]
  · intro env db mid t0 l1 x l2 e hpull h1 hx
    unfold ModelVersions.delete
    simp only [Eff.bind_def, hpull, Eff.bind_mk_ok]
    rw [versionsDeleteEach_abort env db l1 x l2 e h1 hx]
  · intro env db mid t0 l hpull h1
    unfold ModelVersions.delete
    simp only [Eff.bind_def, hpull, Eff.bind_mk_ok]
    rw [versionsDeleteEach_ok env db l h1]

theorem spec_c8_witness :
    Models.delete envAlias dbAbort (some "p1") none =
      ⟨[Op.queryModels (some "p1") none] ++
        (([mDel1].map (fun y => (Model.delete envAlias dbAbort y).ops)).join ++
          (Model.delete envAlias dbAbort mDelAlias).ops),
        .error (Err.invalidInput "Resolve the alias before usage")⟩ :=
  spec_c8_collection_cascade.1 envAlias dbAbort (some "p1") none
    [Op.queryModels (some "p1") none] [mDel1] mDelAlias []
    (Err.invalidInput "Resolve the alias before usage")
    (by decide) (by decide) (by decide)

/-- C7: with an identity set, validation fetches the canonical record and
fails not-found when it is absent; a set in-memory parent differing from the
fetched record's parent fails invalid-input ("does not belong to the
specified ..."); and an identity that is still alias syntax (once fetched and
parent-consistent) fails invalid-input ("Resolve the alias before usage") —
for Model and ModelVersion alike. -/
theorem spec_c7_identity_validation :
    (∀ (env : Env) (db : DBState) (m : Model) (mid : String),
      m.model_id = some mid → mid ≠ "" →
      ((db.models.find? (fun r => r.model_id == some mid) = none →
        (Model.validate env db m).res = .error (Err.noModel "No model found")) ∧
      (∀ R, db.models.find? (fun r => r.model_id == some mid) = some R →
        strTruthy m.project_id = true → m.project_id ≠ R.project_id →
        (Model.validate env db m).res =
          .error (Err.invalidInput "The model does not belong to the specified project")) ∧
      (∀ R, db.models.find? (fun r => r.model_id == some mid) = some R →
        (strTruthy m.project_id = false ∨ m.project_id = R.project_id) →
        env.is_alias mid = true →
        (Model.validate env db m).res =
          .error (Err.invalidInput "Resolve the alias before usage")))) ∧
    (∀ (env : Env) (db : DBState) (v : ModelVersion) (vid : String),
      v.version_id = some vid → vid ≠ "" →
      ((db.versions.find?
          (fun r => optMatch (some vid) r.version_id && optMatch none r.model_id) = none →
        (ModelVersion.validate env db v).res =
          .error (Err.noModel "No model version found")) ∧
      (∀ R, db.versions.find?
          (fun r => optMatch (some vid) r.version_id && optMatch none r.model_id) = some R →
        strTruthy v.model_id = true → v.model_id ≠ R.model_id →
        (ModelVersion.validate env db v).res =
          .error (Err.invalidInput "The model version does not belong to the specified model")) ∧
      (∀ R, db.versions.find?
          (fun r => optMatch (some vid) r.version_id && optMatch none r.model_id) = some R →
        (strTruthy v.model_id = false ∨ v.model_id = R.model_id) →
        env.is_alias vid = true →
        (ModelVersion.validate env db v).res =
          .error (Err.invalidInput "Resolve the alias before usage")))) := by
  constructor
  · intro env db m mid hm hne
    refine ⟨?_, ?_, ?_⟩
    · intro hfind
      rw [Model.validate_res, Model.validateIdentity_eq env db m mid hm hne, Eff.bind_res]
      unfold dbQueryModelOne
      simp [hfind]
    · intro R hfind hp hneq
      rw [Model.validate_res, Model.validateIdentity_eq env db m mid hm hne, Eff.bind_res]
      unfold dbQueryModelOne
      simp [hfind, hp, hneq]
    · intro R hfind hcons hal
      rw [Model.validate_res, Model.validateIdentity_eq env db m mid hm hne, Eff.bind_res]
      unfold dbQueryModelOne
      rcases hcons with hc | hc <;> simp [hfind, hc, hal]
  · intro env db v vid hv hne
    refine ⟨?_, ?_, ?_⟩
    · intro hfind
      rw [ModelVersion.validate_stages_res, ModelVersion.identity_stage_eq env db v vid hv hne,
        Eff.bind_res]
      unfold dbQueryVersionOne
      simp [hfind]
    · intro R hfind hp hneq
      rw [ModelVersion.validate_stages_res, ModelVersion.identity_stage_eq env db v vid hv hne,
        Eff.bind_res]
      unfold dbQueryVersionOne
      simp [hfind, hp, hneq]
    · intro R hfind hcons hal
      rw [ModelVersion.validate_stages_res, ModelVersion.identity_stage_eq env db v vid hv hne,
        Eff.bind_res]
      unfold dbQueryVersionOne
      rcases hcons with hc | hc <;> simp [hfind, hc, hal]

theorem spec_c7_witness :
    (Model.validate envPlain dbFive { model_id := some "missing" }).res =
      .error (Err.noModel "No model found") ∧
    (Model.validate envPlain dbFive { model_id := some "m1", project_id := some "p2" }).res =
      .error (Err.invalidInput "The model does not belong to the specified project") ∧
    (Model.validate envAlias dbAbort { model_id := some "al-tok" }).res =
      .error (Err.invalidInput "Resolve the alias before usage") ∧
    (ModelVersion.validate envPlain dbFive { version_id := some "v9" }).res =
      .error (Err.noModel "No model version found") :=
  ⟨((spec_c7_identity_validation.1 envPlain dbFive { model_id := some "missing" } "missing"
      rfl (by decide)).1 (by decide)),
   ((spec_c7_identity_validation.1 envPlain dbFive
      { model_id := some "m1", project_id := some "p2" } "m1" rfl (by decide)).2.1 rowM1
      (by decide) (by decide) (by decide)),
   ((spec_c7_identity_validation.1 envAlias dbAbort { model_id := some "al-tok" } "al-tok"
      rfl (by decide)).2.2 { rowM1 with model_id := some "al-tok", name := some "nm2" }
      (by decide) (Or.inl rfl) (by decide)),
   ((spec_c7_identity_validation.2 envPlain dbFive { version_id := some "v9" } "v9"
      rfl (by decide)).1 (by decide))⟩

/-- With a truthy candidate name the name stage issues exactly one sibling
query, filtered by the in-memory `project_id` verbatim. -/
theorem Model.validateName_ops_truthy (env : Env) (db : DBState) (m : Model) (nm : String)
    (hnm : m.name = some nm) (hne : nm ≠ "") :
    (Model.validateName env db m).ops = [Op.queryModels m.project_id none] := by
  simp only [Model.validateName, hnm, hne, if_false]
  simp only [Eff.bind_def, dbQueryModels_eq, Eff.bind_mk_ok]
  by_cases hany : ((keepLastByModelId (modelRowsInScope db m.project_id)).any
      (fun r => r.model_id != m.model_id && strTruthy r.name && r.name == some nm)) = true
  · simp [hany]
  · simp only [Bool.not_eq_true] at hany
    simp only [hany, Bool.false_eq_true, if_false]
    cases hfind : (keepLastByModelId (modelRowsInScope db m.project_id)).find?
        (fun r => r.model_id == m.model_id) with
    | none => by_cases hv : env.valid_filename nm = true <;> simp [hfind, hv]
    | some own =>
      by_cases hch : own.name = some nm <;> by_cases hv : env.valid_filename nm = true <;>
        simp [hfind, hch, hv]

/-- The name stage issues either no request or exactly the one sibling query. -/
theorem Model.validateName_ops (env : Env) (db : DBState) (m : Model) :
    (Model.validateName env db m).ops = [] ∨
      (Model.validateName env db m).ops = [Op.queryModels m.project_id none] := by
  cases hmm : m.name with
  | none =>
    left
    unfold Model.validateName
    rw [hmm]
    rfl
  | some nm =>
    by_cases h : nm = ""
    · left
      unfold Model.validateName
      rw [hmm]
      simp [h]
    · right
      exact Model.validateName_ops_truthy env db m nm hmm h

/-- The directory stage issues either no request or exactly one directory
query scoped to the in-memory project and the model component type. -/
theorem Model.validateDirectory_ops (env : Env) (db : DBState) (m : Model) :
    (Model.validateDirectory env db m).ops = [] ∨
      ∃ did, (Model.validateDirectory env db m).ops =
        [Op.queryDirectories (some did) m.project_id COMPONENT_TYPES_model] := by
  unfold Model.validateDirectory
  cases m.directory_id with
  | none => exact Or.inl rfl
  | some did =>
    by_cases h : did = ""
    · left
      simp [h]
    · right
      exact ⟨did, by simp [h, dbQueryDirectories]⟩

/-- C10: the sibling set for the name-uniqueness check is queried with exactly
the in-memory `project_id` — even when that field is `None` — and never with
the project fetched from the store for the existing `model_id`; no other
model-collection query is issued anywhere in `validate`. -/
theorem spec_c10_scope_query (env : Env) (db : DBState) (m : Model) :
    (∀ (p d : Option String), Op.queryModels p d ∈ (Model.validate env db m).ops →
      p = m.project_id ∧ d = none) ∧
    (∀ nm, m.name = some nm → nm ≠ "" →
      (Model.validateIdentity env db m).res = .ok () →
      Op.queryModels m.project_id none ∈ (Model.validate env db m).ops) := by
  constructor
  · intro p d hmem
    rw [Model.validate_ops] at hmem
    rcases List.mem_append.mp hmem with hin | hin
    · rcases Model.validateIdentity_ops env db m with h0 | ⟨s, h0⟩ <;> rw [h0] at hin <;>
        simp at hin
    · rcases hres : (Model.validateIdentity env db m).res with e | u
      · rw [hres] at hin
        simp at hin
      · rw [hres] at hin
        simp only at hin
        rcases List.mem_append.mp hin with hin2 | hin2
        · rcases Model.validateName_ops env db m with h1 | h1 <;> rw [h1] at hin2
          · simp at hin2
          · simp at hin2
            exact hin2
        · rcases hnres : (Model.validateName env db m).res with e2 | u2
          · rw [hnres] at hin2
            simp at hin2
          · rw [hnres] at hin2
            simp only at hin2
            rcases Model.validateDirectory_ops env db m with h2 | ⟨did, h2⟩ <;>
              rw [h2] at hin2 <;> simp at hin2
  · intro nm hnm hne hok
    have hnops := Model.validateName_ops_truthy env db m nm hnm hne
    rw [Model.validate_ops]
    simp only [hok, hnops]
    simp

theorem spec_c10_witness :
    Op.queryModels none none ∈
      (Model.validate envPlain dbC10
        { model_id := some "m1", project_id := none, name := some "nm1" }).ops ∧
    (∀ (p d : Option String),
      Op.queryModels p d ∈
        (Model.validate envPlain dbC10
          { model_id := some "m1", project_id := none, name := some "nm1" }).ops →
      p = none ∧ d = none) :=
  ⟨(spec_c10_scope_query envPlain dbC10
      { model_id := some "m1", project_id := none, name := some "nm1" }).2 "nm1" rfl
      (by decide) (by decide),
   (spec_c10_scope_query envPlain dbC10
      { model_id := some "m1", project_id := none, name := some "nm1" }).1⟩

/-- C2: with a truthy candidate name and the identity checks passed, both
entities reject a name held by any other sibling in the in-memory scope
("already exists"), accept it otherwise, and run filename-syntax validation
exactly when the candidate differs from the name on record for this identity:
a brand-new identity is always syntax-checked, an unchanged name on an
existing record is not re-checked for syntax yet still collision-checked. -/
theorem spec_c2_name_validation :
    (∀ (env : Env) (db : DBState) (m : Model) (nm : String),
      m.name = some nm → nm ≠ "" →
      (db.models.map ModelRow.model_id).Nodup →
      (Model.validateIdentity env db m).res = .ok () →
      ((∃ r ∈ modelRowsInScope db m.project_id,
          r.model_id ≠ m.model_id ∧ strTruthy r.name = true ∧ r.name = some nm) →
        (Model.validate env db m).res =
          .error (Err.invalidInput ("A model with name " ++ nm ++ " already exists"))) ∧
      ((¬ ∃ r ∈ modelRowsInScope db m.project_id,
          r.model_id ≠ m.model_id ∧ strTruthy r.name = true ∧ r.name = some nm) →
        (∀ own, (modelRowsInScope db m.project_id).find?
            (fun r => r.model_id == m.model_id) = some own →
          own.name = some nm → (Model.validate env db m).res = .ok ()) ∧
        (((modelRowsInScope db m.project_id).find?
            (fun r => r.model_id == m.model_id) = none ∨
          (∃ own, (modelRowsInScope db m.project_id).find?
              (fun r => r.model_id == m.model_id) = some own ∧ own.name ≠ some nm)) →
          ((Model.validate env db m).res = .ok () ↔ env.valid_filename nm = true)))) ∧
    (∀ (env : Env) (db : DBState) (v : ModelVersion) (nm : String),
      v.version = some nm → nm ≠ "" →
      (db.versions.map VersionRow.version_id).Nodup →
      (ModelVersion.validateIdentity env db v).res = .ok () →
      ((∃ r ∈ versionRowsOf db v.model_id,
          r.version_id ≠ v.version_id ∧ strTruthy r.version = true ∧ r.version = some nm) →
        (ModelVersion.validate env db v).res =
          .error (Err.invalidInput ("A model version " ++ nm ++ " already exists"))) ∧
      ((¬ ∃ r ∈ versionRowsOf db v.model_id,
          r.version_id ≠ v.version_id ∧ strTruthy r.version = true ∧ r.version = some nm) →
        (∀ own, (versionRowsOf db v.model_id).find?
            (fun r => r.version_id == v.version_id) = some own →
          own.version = some nm → (ModelVersion.validate env db v).res = .ok ()) ∧
        (((versionRowsOf db v.model_id).find?
            (fun r => r.version_id == v.version_id) = none ∨
          (∃ own, (versionRowsOf db v.model_id).find?
              (fun r => r.version_id == v.version_id) = some own ∧ own.version ≠ some nm)) →
          ((ModelVersion.validate env db v).res = .ok () ↔
            env.valid_filename nm = true)))) := by
  constructor
  · intro env db m nm hnm hne hnodup hid
    have hnodup2 : ((modelRowsInScope db m.project_id).map ModelRow.model_id).Nodup :=
      hnodup.sublist ((List.filter_sublist db.models).map ModelRow.model_id)
    have hspec := Model.validateName_spec env db m nm hnm hne hnodup2
    have hnres := congrArg Eff.res hspec
    simp only at hnres
    have hvmatch : (Model.validate env db m).res =
        (match (Model.validateName env db m).res with
         | .error e => .error e
         | .ok _ => .ok ()) := by
      rw [Model.validate_res, hid, Model.validateDirectory_res]
    have hiff : (((modelRowsInScope db m.project_id).any
        (fun r => r.model_id != m.model_id && strTruthy r.name && r.name == some nm)) = true) ↔
        (∃ r ∈ modelRowsInScope db m.project_id,
          r.model_id ≠ m.model_id ∧ strTruthy r.name = true ∧ r.name = some nm) := by
      simp [List.any_eq_true, and_assoc]
    constructor
    · intro hex
      have hc := hiff.mpr hex
      rw [hvmatch, hnres, if_pos hc]
    · intro hnex
      have hc : ((modelRowsInScope db m.project_id).any
          (fun r => r.model_id != m.model_id && strTruthy r.name && r.name == some nm)) = false := by
        cases hcb : ((modelRowsInScope db m.project_id).any
            (fun r => r.model_id != m.model_id && strTruthy r.name && r.name == some nm)) with
        | false => rfl
        | true => exact absurd (hiff.mp hcb) hnex
      constructor
      · intro own hfind hsame
        rw [hvmatch, hnres, hc]
        simp only [Bool.false_eq_true, if_false, hfind, hsame]
        simp
      · intro hchanged
        rcases hchanged with hfind | ⟨own, hfind, hdiff⟩
        · rw [hvmatch, hnres, hc]
          simp only [Bool.false_eq_true, if_false, hfind]
          by_cases hv : env.valid_filename nm = true <;> simp [hv]
        · rw [hvmatch, hnres, hc]
          simp only [Bool.false_eq_true, if_false, hfind, hdiff]
          by_cases hv : env.valid_filename nm = true <;> simp [hv, hdiff]
  · intro env db v nm hnm hne hnodup hid
    have hnodup2 : ((versionRowsOf db v.model_id).map VersionRow.version_id).Nodup :=
      hnodup.sublist ((List.filter_sublist db.versions).map VersionRow.version_id)
    have hspec := ModelVersion.validateVersion_spec env db v nm hnm hne hnodup2
    have hnres := congrArg Eff.res hspec
    simp only at hnres
    have hvmatch : (ModelVersion.validate env db v).res =
        (match (ModelVersion.validateVersion env db v).res with
         | .error e => .error e
         | .ok _ => .ok ()) := by
      rw [ModelVersion.validate_stages_res, hid]
      cases (ModelVersion.validateVersion env db v).res <;> rfl
    have hiff : (((versionRowsOf db v.model_id).any
        (fun r => r.version_id != v.version_id && strTruthy r.version && r.version == some nm)) = true) ↔
        (∃ r ∈ versionRowsOf db v.model_id,
          r.version_id ≠ v.version_id ∧ strTruthy r.version = true ∧ r.version = some nm) := by
      simp [List.any_eq_true, and_assoc]
    constructor
    · intro hex
      have hc := hiff.mpr hex
      rw [hvmatch, hnres, if_pos hc]
    · intro hnex
      have hc : ((versionRowsOf db v.model_id).any
          (fun r => r.version_id != v.version_id && strTruthy r.version && r.version == some nm)) = false := by
        cases hcb : ((versionRowsOf db v.model_id).any
            (fun r => r.version_id != v.version_id && strTruthy r.version && r.version == some nm)) with
        | false => rfl
        | true => exact absurd (hiff.mp hcb) hnex
      constructor
      · intro own hfind hsame
        rw [hvmatch, hnres, hc]
        simp only [Bool.false_eq_true, if_false, hfind, hsame]
        simp
      · intro hchanged
        rcases hchanged with hfind | ⟨own, hfind, hdiff⟩
        · rw [hvmatch, hnres, hc]
          simp only [Bool.false_eq_true, if_false, hfind]
          by_cases hv : env.valid_filename nm = true <;> simp [hv]
        · rw [hvmatch, hnres, hc]
          simp only [Bool.false_eq_true, if_false, hfind, hdiff]
          by_cases hv : env.valid_filename nm = true <;> simp [hv, hdiff]

theorem spec_c2_witness :
    (Model.validate envPlain dbC2
      { model_id := some "m2", project_id := some "p1", name := some "nm1" }).res =
      .error (Err.invalidInput ("A model with name " ++ "nm1" ++ " already exists")) ∧
    (Model.validate envPlain dbC2
      { model_id := some "m3", project_id := some "p1", name := some "bad/nm" }).res =
      .ok () ∧
    ((Model.validate envPlain dbC2
      { project_id := some "p1", name := some "inva/lid" }).res = .ok () ↔
      envPlain.valid_filename "inva/lid" = true) :=
  ⟨(spec_c2_name_validation.1 envPlain dbC2
      { model_id := some "m2", project_id := some "p1", name := some "nm1" } "nm1"
      rfl (by decide) (by decide) (by decide)).1 (by decide),
   ((spec_c2_name_validation.1 envPlain dbC2
      { model_id := some "m3", project_id := some "p1", name := some "bad/nm" } "bad/nm"
      rfl (by decide) (by decide) (by decide)).2 (by decide)).1 rowBad (by decide) (by decide),
   ((spec_c2_name_validation.1 envPlain dbC2
      { project_id := some "p1", name := some "inva/lid" } "inva/lid"
      rfl (by decide) (by decide) (by decide)).2 (by decide)).2 (Or.inl (by decide))⟩

/-- C4 counterexample: a store row with an unset description round-trips to a
model whose description is `""` rather than `None`, so the wire round trip is
not field-identical for every row-constructed model. -/
theorem spec_c4_counterexample :
    (Model.from_proto envPlain dbNoDesc
      (Model.to_proto envPlain (Model.from_namedtuple rowNoDesc))).res =
      .ok { Model.from_namedtuple rowNoDesc with description := some "" } ∧
    (Model.from_proto envPlain dbNoDesc
      (Model.to_proto envPlain (Model.from_namedtuple rowNoDesc))).res ≠
      .ok (Model.from_namedtuple rowNoDesc) := by
  decide

/-- C4 amended: the round trip from a store row through `to_proto` and
`from_proto` reproduces the identical model provided the row's optional
string fields are not the empty string, its `latest_version_id`,
`description`, `directory_id` and both timestamps are set, its ids are not
alias tokens, the model-type formatting round-trips its stored type to a
non-empty external name, and the row's model passes validation. -/
theorem spec_c4_roundtrip_amended (env : Env) (db : DBState) (r : ModelRow)
    (hal : ∀ s, env.is_alias s = false)
    (hmt : ∀ t, r.model_type = some t →
      env.toInternalType (env.toExternalType t) = t ∧ env.toExternalType t ≠ "")
    (h1 : r.model_id ≠ some "") (h2 : r.project_id ≠ some "")
    (h3 : r.name ≠ some "") (h4 : r.model_type ≠ some "")
    (h5 : r.sub_model_type ≠ some "")
    (hlat : ∃ s, r.latest_version_id = some s) (hdesc : ∃ s, r.description = some s)
    (hdir : ∃ s, r.directory_id = some s)
    (hca : ∃ n, r.created_at = some n) (hma : ∃ n, r.modified_at = some n)
    (hval : (Model.validate env db (Model.from_namedtuple r)).res = .ok ()) :
    (Model.from_proto env db (Model.to_proto env (Model.from_namedtuple r))).res =
      .ok (Model.from_namedtuple r) :=
  Model.roundtrip_aux env db (Model.from_namedtuple r) hal hmt h1 h2 h3 h4 h5
    hlat hdesc hdir hca hma hval

theorem spec_c4_witness :
    (Model.from_proto envPlain dbFive
      (Model.to_proto envPlain (Model.from_namedtuple rowM1))).res =
      .ok (Model.from_namedtuple rowM1) :=
  spec_c4_roundtrip_amended envPlain dbFive rowM1 (fun _ => rfl)
    (fun t ht => by
      injection ht with h
      subst h
      exact ⟨rfl, by decide⟩)
    (by decide) (by decide) (by decide) (by decide) (by decide)
    ⟨"lv1", rfl⟩ ⟨"d1", rfl⟩ ⟨"dir1", rfl⟩ ⟨5, rfl⟩ ⟨6, rfl⟩ (by decide)
